import Mathlib

/-!
# Verification of the Dolphin IOS ES device (Source/Core/Core/IOS/ES/ES.cpp)

Shallow embedding of the ES (security/content-management) HLE device:
the title context, the content access table (CFD map), the title import
and export sessions, the launch orchestrator and the AES-128-CBC crypto
entry points, together with the IOCtlV command dispatcher's per-handler
vector-shape validation.

Machine integers are modelled as `Nat` with explicit reductions modulo
`2^32` (`u32`) exactly where the C++ performs 32-bit unsigned arithmetic;
`u64` quantities stay as plain `Nat` (no operation in the modelled code
overflows 64 bits).  External collaborators (content loaders, guest
memory, the NAND, IOS reload/bootstrap) are explicit parameters gathered
in `Env`.
-/

set_option maxHeartbeats 1000000
set_option linter.unusedVariables false

namespace DolphinES

/-- Truncation to 32 bits: models C++ `u32` wraparound arithmetic. -/
def u32 (n : Nat) : Nat := n % 4294967296

/-- Reinterpret a `u32` value as a signed `s32`, as the C++ does when a
`u32` (for example a clamped read size or a CFD) is returned through
`GetDefaultReply`, which takes an `s32`. -/
def toS32 (n : Nat) : Int :=
  if u32 n < 2147483648 then (u32 n : Int) else (u32 n : Int) - 4294967296

/-- IPC result codes (`Core/IOS/ES/ES.h` is not part of the given sources;
the identifiers come from the spec's error-kind list, §7.  The theorems
below use only the identity and distinctness of these codes). -/
def IPC_SUCCESS : Int := 0

def FS_ENOENT : Int := -106

def FS_EACCESS : Int := -102

def ES_PARAMETER_SIZE_OR_ALIGNMENT : Int := -1017

def ES_INVALID_TMD : Int := -1029

def ES_WRITE_FAILURE : Int := -1031

def ES_NO_TICKET_INSTALLED : Int := -1028

def ES_READ_LESS_DATA_THAN_EXPECTED : Int := -1024

/-- A content entry of a TMD: `IOS::ES::Content` (modelled from the spec's
ContentEntry: content id, index, size, hash, shared flag; `Formats.h` is
not among the given sources). -/
structure Content where
  id : Nat
  index : Nat
  size : Nat
  shared : Bool
  sha1 : List Nat
  deriving Repr, DecidableEq

/-- Modelled from the spec: a decoded TMD (`IOS::ES::TMDReader`): validity
is a derived boolean; title id, required IOS id, group id, content list,
and the byte sizes of its raw form and raw view (used only for size
comparisons by the handlers). -/
structure TMD where
  valid : Bool
  titleId : Nat
  iosId : Nat
  groupId : Nat
  contents : List Content
  rawSize : Nat
  viewSize : Nat
  deriving Repr, DecidableEq

/-- The empty TMD, the result of `SetBytes({})`: structurally invalid. -/
def TMD.empty : TMD :=
  { valid := false, titleId := 0, iosId := 0, groupId := 0, contents := [],
    rawSize := 0, viewSize := 0 }

/-- `TMDReader::FindContentById`. -/
def TMD.findContentById (tmd : TMD) (id : Nat) : Option Content :=
  tmd.contents.find? (fun c => c.id == id)

/-- `CNANDContentLoader::GetContentByIndex`, restricted to the metadata the
handlers use. -/
def TMD.findContentByIndex (tmd : TMD) (index : Nat) : Option Content :=
  tmd.contents.find? (fun c => c.index == index)

/-- Modelled from the spec: a decoded ticket (`IOS::ES::TicketReader`):
validity is a derived boolean; the ticket's title id and its decrypted
128-bit title key. -/
structure Ticket where
  valid : Bool
  titleId : Nat
  titleKey : List Nat
  deriving Repr, DecidableEq

/-- The empty ticket, the result of `SetBytes({})`: invalid. -/
def Ticket.empty : Ticket := { valid := false, titleId := 0, titleKey := [] }

/-- Modelled from the spec: a content loader (`DiscIO::CNANDContentLoader`)
as seen by ES: overall validity, the decoded TMD and ticket. -/
structure Loader where
  valid : Bool
  tmd : TMD
  ticket : Ticket
  deriving Repr, DecidableEq

/-- `TitleContext` (ES.cpp, lines 44-56): the process-wide record of the
running title.  `first_change` is default-initialised to `true` and is
deliberately not touched by `Clear`. -/
structure TitleContext where
  ticket : Ticket
  tmd : TMD
  active : Bool
  first_change : Bool
  deriving Repr, DecidableEq

/-- A freshly constructed `TitleContext{}` (as assigned by `ES::Init`). -/
def TitleContext.init : TitleContext :=
  { ticket := Ticket.empty, tmd := TMD.empty, active := false, first_change := true }

/-- `TitleContext::Clear` (ES.cpp 105-110): drops the ticket and TMD and
deactivates; it does not reset `first_change`. -/
def TitleContext.clear (c : TitleContext) : TitleContext :=
  { c with ticket := Ticket.empty, tmd := TMD.empty, active := false }

/-- `TitleContext::Update(tmd, ticket)` (ES.cpp 126-144).  Returns the new
context together with a flag telling whether `UpdateRunningGame` (the
one-time "running title changed" notification) fired during this call. -/
def TitleContext.update (c : TitleContext) (tmd_ : TMD) (ticket_ : Ticket) :
    TitleContext × Bool :=
  if !tmd_.valid || !ticket_.valid then
    (c, false)
  else
    ({ ticket := ticket_, tmd := tmd_, active := true, first_change := false },
      c.first_change)

/-- `OpenedContent` (the content access table's slot): title id, a copy of
the content metadata, and the 32-bit read position. -/
structure OpenedContent where
  m_title_id : Nat
  m_content : Content
  m_position : Nat
  deriving Repr, DecidableEq

/-- One entry of `TitleExportContext::contents`: the opened content plus
the per-stream 16-byte IV (CBC chaining state across data calls). -/
structure ExportContent where
  content : OpenedContent
  iv : List Nat
  deriving Repr, DecidableEq

/-- `TitleExportContext`: the single in-flight export session. -/
structure TitleExportContext where
  valid : Bool
  tmd : TMD
  title_key : List Nat
  contents : List (Nat × ExportContent)
  deriving Repr, DecidableEq

/-- The ES device state the claims are about: the title context, the
pending-launch title (`s_title_to_launch`), whether `s_content_file` is
non-empty, the CFD counter (`m_AccessIdentID`), the content access map,
the import session (`m_addtitle_*`) and the export session. -/
structure ESState where
  titleContext : TitleContext
  titleToLaunch : Nat
  contentFileSet : Bool
  accessIdentID : Nat
  contentAccessMap : List (Nat × OpenedContent)
  addtitle_tmd : TMD
  addtitle_content_id : Nat
  addtitle_content_buffer : List Nat
  export_title_context : TitleExportContext
  deriving Repr, DecidableEq

/-- Map lookup on the association lists standing in for `std::map`. -/
def mfind {α : Type} (m : List (Nat × α)) (k : Nat) : Option α :=
  (m.find? (fun p => p.1 == k)).map (fun p => p.2)

/-- `std::map` insert-or-assign (`m[k] = v`). -/
def minsert {α : Type} (m : List (Nat × α)) (k : Nat) (v : α) : List (Nat × α) :=
  (k, v) :: m.filter (fun p => !(p.1 == k))

/-- `std::map::erase`. -/
def merase {α : Type} (m : List (Nat × α)) (k : Nat) : List (Nat × α) :=
  m.filter (fun p => !(p.1 == k))

/-- The scan loop of the
`while (contents.find(cid) != contents.end()) cid++;` id allocation of
`ES::ExportContentBegin`, bounded by the remaining `fuel`. -/
def mexAux {α : Type} (m : List (Nat × α)) : Nat → Nat → Nat
  | 0, k => k
  | b + 1, k => if (mfind m k).isNone then k else mexAux m b (k + 1)

/-- The id allocated by `ES::ExportContentBegin`: the least key not
present in the map.  Among the first `m.length + 1` naturals at least one
key is unused, so the bound `m.length + 1` never cuts the scan short. -/
def mex {α : Type} (m : List (Nat × α)) : Nat :=
  mexAux m (m.length + 1) 0

/-- An ioctl vector descriptor: guest address and byte length. -/
structure IOVector where
  address : Nat
  size : Nat
  deriving Repr, DecidableEq

/-- An `IOCtlVRequest`: ordered input and output vector descriptors. -/
structure Request where
  inVectors : List IOVector
  ioVectors : List IOVector
  deriving Repr, DecidableEq

/-- Vector access after a successful shape check (`request.in_vectors[i]`);
out-of-range access never happens after the checks, the default is inert. -/
def vecAt (l : List IOVector) (i : Nat) : IOVector :=
  (l.get? i).getD { address := 0, size := 0 }

/-- Modelled from the spec: `IOCtlVRequest::HasNumberOfValidVectors`, the
per-handler declaration of the exact (input-count, output-count) shape it
accepts. -/
def hasVectors (r : Request) (nin nout : Nat) : Bool :=
  r.inVectors.length == nin && r.ioVectors.length == nout

/-- A handler's reply: an immediate result code (`GetDefaultReply`) or the
deferred path (`GetNoReply`). -/
inductive Reply where
  | default : Int → Reply
  | noReply : Reply
  deriving Repr, DecidableEq

/-- Modelled from the spec: a 128-bit block cipher with per-key encrypt
and decrypt directions (standing in for the mbedtls AES-128 primitive,
whose implementation is not part of the given sources). -/
structure BlockCipher where
  enc : List Nat → List Nat → List Nat
  dec : List Nat → List Nat → List Nat

/-- Byte-wise xor of two equal-length buffers. -/
def xorBytes (a b : List Nat) : List Nat := List.zipWith (fun x y => x ^^^ y) a b

/-- The 16-byte chunking recursion behind `toBlocks`, made structural on
a fuel bound (one unit of fuel is spent per leading element; `toBlocks`
supplies the list's length, which always suffices). -/
def toBlocksAux : Nat → List Nat → Option (List (List Nat))
  | _, [] => some []
  | 0, _ :: _ => none
  | fuel + 1, x :: xs =>
    if (x :: xs).length < 16 then none
    else (toBlocksAux fuel ((x :: xs).drop 16)).map (fun bs => (x :: xs).take 16 :: bs)

/-- Split a buffer into 16-byte cipher blocks; `none` when the length is
not a multiple of 16 (mbedtls rejects such lengths without touching the
output or the IV). -/
def toBlocks (l : List Nat) : Option (List (List Nat)) := toBlocksAux l.length l

/-- CBC decryption over a block list: each plaintext block is the block
decryption xored with the chaining IV, and the IV becomes the ciphertext
block just consumed; returns the plaintext blocks and the final IV. -/
def cbcDecBlocks (C : BlockCipher) (key : List Nat) (iv : List Nat) :
    List (List Nat) → List (List Nat) × List Nat
  | [] => ([], iv)
  | b :: rest =>
    let p := xorBytes (C.dec key b) iv
    let (ps, fiv) := cbcDecBlocks C key b rest
    (p :: ps, fiv)

/-- CBC encryption over a block list: each ciphertext block is the block
encryption of plaintext xored with the chaining IV, which then becomes
the new IV; returns the ciphertext blocks and the final IV. -/
def cbcEncBlocks (C : BlockCipher) (key : List Nat) (iv : List Nat) :
    List (List Nat) → List (List Nat) × List Nat
  | [] => ([], iv)
  | b :: rest =>
    let c := C.enc key (xorBytes b iv)
    let (cs, fiv) := cbcEncBlocks C key c rest
    (c :: cs, fiv)

/-- Modelled from the spec: `mbedtls_aes_crypt_cbc(ctx, DECRYPT, ...)`:
on a valid length, produces the plaintext and updates the caller's IV
buffer to the final chaining value; on an invalid length does nothing. -/
def cbcDec (C : BlockCipher) (key iv input : List Nat) :
    Option (List Nat × List Nat) :=
  (toBlocks input).map (fun bs =>
    let r := cbcDecBlocks C key iv bs
    (r.1.flatten, r.2))

/-- Modelled from the spec: `mbedtls_aes_crypt_cbc(ctx, ENCRYPT, ...)`. -/
def cbcEnc (C : BlockCipher) (key iv input : List Nat) :
    Option (List Nat × List Nat) :=
  (toBlocks input).map (fun bs =>
    let r := cbcEncBlocks C key iv bs
    (r.1.flatten, r.2))

/-- The fixed SD key (`s_key_sd`, ES.cpp 65-66). -/
def s_key_sd : List Nat :=
  [0xab, 0x01, 0xb9, 0xd8, 0xe1, 0x62, 0x2b, 0x08,
   0xaf, 0xba, 0xd8, 0x4d, 0xbf, 0xc2, 0xa5, 0x5d]

/-- The fixed ECC private key slot (`s_key_ecc`, 30 bytes, last byte 1). -/
def s_key_ecc : List Nat := List.replicate 29 0 ++ [1]

/-- An all-zero 128-bit key slot (`s_key_empty`). -/
def s_key_empty : List Nat := List.replicate 16 0

/-- The fixed key table (`s_key_table`, ES.cpp 74-86): slot 0 is the ECC
key, slot 6 the SD key, every other slot is empty.  (The C++ array has 11
entries; an out-of-range index is undefined behaviour there and mapped to
the empty key here.) -/
def s_key_table : Nat → List Nat
  | 0 => s_key_ecc
  | 6 => s_key_sd
  | _ => s_key_empty

/-- `ES::DecryptContent` (ES.cpp 191-197): sets up the key schedule for
`s_key_table[key_index]` (AES-128 reads the first 16 key bytes), copies
the caller IV into the `new_iv` buffer and then runs CBC decryption with
`new_iv` as the in-place chaining buffer.  Returns `(new_iv, output)`;
`dest0` is the prior content of the output buffer, left untouched when
mbedtls rejects the length. -/
def DecryptContent (C : BlockCipher) (key_index : Nat) (iv input dest0 : List Nat) :
    List Nat × List Nat :=
  match cbcDec C ((s_key_table key_index).take 16) iv input with
  | some (out, fiv) => (fiv, out)
  | none => (iv, dest0)

/-- The body of `ES::Encrypt` (ES.cpp 1322-1342) after vector decoding:
key schedule from the table, `memcpy(newIV, IV, 16)`, then CBC encryption
chaining through the `newIV` buffer.  Returns `(new_iv, destination)`. -/
def EncryptBody (C : BlockCipher) (key_index : Nat) (iv input dest0 : List Nat) :
    List Nat × List Nat :=
  match cbcEnc C ((s_key_table key_index).take 16) iv input with
  | some (out, fiv) => (fiv, out)
  | none => (iv, dest0)

/-- The IV used for per-content decryption and encryption: a 16-byte
zero buffer whose first two bytes are set to the high and low byte of the
content index (`u8 iv[16] = {0}; iv[0] = (index >> 8) & 0xFF; iv[1] =
index & 0xFF;`, ES.cpp 614-616 and 1478-1479). -/
def makeContentIV (index : Nat) : List Nat :=
  (((List.replicate 16 0).set 0 ((index >>> 8) &&& 0xFF)).set 1 (index &&& 0xFF))

/-- The external collaborators of the ES device, gathered as explicit
parameters: NAND content loaders, the WAD file loader, guest memory
reads, backing content data, the installed-ticket store, NAND file
operations (as success predicates), the installed-title indexes, the IOS
reload/bootstrap outcomes and the AES block cipher. -/
structure Env where
  nand : Nat → Loader
  fileLoader : Loader
  readU16 : Nat → Nat
  readU32 : Nat → Nat
  readU64 : Nat → Nat
  bytesAt : Nat → Nat → List Nat
  ptrOK : Nat → Bool
  contentBytes : Nat → Nat → List Nat
  findTicket : Nat → Ticket
  tmdAt : Nat → Nat → TMD
  writeTMDOk : TMD → Bool
  titleDirExists : Nat → Bool
  removeTitleOk : Nat → Bool
  deleteDirOk : Nat → Bool
  deleteTicketOk : Nat → Bool
  installedTitles : List Nat
  ticketTitles : List Nat
  reload : Nat → Bool
  bootstrap : Nat → Bool
  iosVersion : Nat
  cipher : BlockCipher

/-- `Memory::Read_U32`: guest reads return 32-bit values. -/
def ru32 (env : Env) (a : Nat) : Nat := u32 (env.readU32 a)

/-- `Memory::Read_U64`. -/
def ru64 (env : Env) (a : Nat) : Nat := env.readU64 a % 18446744073709551616

/-- `ES::AccessContentDevice` (ES.cpp 1682-1695): the WAD file loader when
the active title matches and a content file is set, the NAND loader for
the title id otherwise. -/
def accessContentDevice (env : Env) (s : ESState) (title_id : Nat) : Loader :=
  if s.titleContext.active && s.titleContext.tmd.titleId == title_id
      && s.contentFileSet then
    env.fileLoader
  else
    env.nand title_id

/-- Modelled from the spec: `IOS::ES::IsTitleType(id, TitleType::System)`
(`Formats.cpp` is not among the given sources; the spec states the high
32 bits name the title type, and §8 names `0x00000001` as the system
type). -/
def isSystemTitle (title_id : Nat) : Bool := u32 (title_id >>> 32) == 1

/-- Modelled from the spec: the fixed system-menu identifier
(`TITLEID_SYSMENU`). -/
def TITLEID_SYSMENU : Nat := 0x0000000100000002

/-- `ES::LaunchIOS` (ES.cpp 216-219): reload the emulated IOS to the given
title and report the outcome. -/
def LaunchIOS (env : Env) (ios_title_id : Nat) : Bool := env.reload ios_title_id

/-- The shared body of `ES::LaunchTitle` (ES.cpp 199-214): clears the
title context, flushes the loader cache (external), and either reloads
IOS directly (system titles other than the system menu) or runs the
`ES::LaunchPPCTitle` body (ES.cpp 221-249, inlined here): that fails on a
missing loader or invalid TMD/ticket; unless the reload is skipped it
records the title as pending (`s_title_to_launch`) and re-enters the
orchestrator (`ppc`) on the TMD's required IOS; otherwise it updates the
title context and bootstraps the PPC. -/
def launchTitleCore (ppc : ESState → Nat → ESState × Bool) (env : Env) (s : ESState)
    (title_id : Nat) (skip_reload : Bool) : ESState × Bool :=
  let s1 := { s with titleContext := s.titleContext.clear }
  if isSystemTitle title_id && title_id != TITLEID_SYSMENU then
    (s1, LaunchIOS env title_id)
  else
    let loader := accessContentDevice env s1 title_id
    if !loader.valid then
      (s1, false)
    else if !loader.tmd.valid || !loader.ticket.valid then
      (s1, false)
    else if !skip_reload then
      let s2 := { s1 with titleToLaunch := title_id }
      ppc s2 loader.tmd.iosId
    else
      let s3 := { s1 with
        titleContext := (s1.titleContext.update loader.tmd loader.ticket).1 }
      (s3, env.bootstrap title_id)

/-- `ES::LaunchTitle`, with the C++ recursion
`LaunchPPCTitle -> LaunchTitle(required_ios)` bounded structurally by
`fuel` (every real launch chain reloads at most once before hitting the
direct-reload path). -/
def LaunchTitle : Nat → Env → ESState → Nat → Bool → ESState × Bool
  | 0, env, s, title_id, skip_reload =>
    launchTitleCore (fun s2 _ => (s2, false)) env s title_id skip_reload
  | fuel + 1, env, s, title_id, skip_reload =>
    launchTitleCore (fun s2 required_ios => LaunchTitle fuel env s2 required_ios false)
      env s title_id skip_reload

/-- `ES::LaunchPPCTitle` under its own name, as called on the
context-cleared state by `LaunchTitle`. -/
def LaunchPPCTitle (fuel : Nat) (env : Env) (s : ESState)
    (title_id : Nat) (skip_reload : Bool) : ESState × Bool :=
  let loader := accessContentDevice env s title_id
  if !loader.valid then
    (s, false)
  else if !loader.tmd.valid || !loader.ticket.valid then
    (s, false)
  else if !skip_reload then
    let s2 := { s with titleToLaunch := title_id }
    LaunchTitle fuel env s2 loader.tmd.iosId false
  else
    let s3 := { s with
      titleContext := (s.titleContext.update loader.tmd loader.ticket).1 }
    (s3, env.bootstrap title_id)

/-- For a non-system launch target, `LaunchTitle` is exactly
`LaunchPPCTitle` on the context-cleared state, as in the source. -/
theorem LaunchTitle_eq_ppc (fuel : Nat) (env : Env) (s : ESState)
    (title_id : Nat) (skip_reload : Bool)
    (h : (isSystemTitle title_id && title_id != TITLEID_SYSMENU) = false) :
    LaunchTitle (fuel + 1) env s title_id skip_reload =
      LaunchPPCTitle fuel env { s with titleContext := s.titleContext.clear }
        title_id skip_reload := by
  simp only [LaunchTitle, launchTitleCore, LaunchPPCTitle, h, Bool.false_eq_true,
    if_false]

/-- `ES::Init` (ES.cpp 92-103): resets the content file and title context,
then re-launches the pending title (with the reload skipped) if one was
recorded before the IOS reload. -/
def ES_Init (fuel : Nat) (env : Env) (s : ESState) : ESState :=
  let s1 := { s with contentFileSet := false, titleContext := TitleContext.init }
  if s1.titleToLaunch != 0 then
    let s2 := (LaunchTitle fuel env s1 s1.titleToLaunch true).1
    { s2 with titleToLaunch := 0 }
  else
    s1

/-- `ES::Close` (ES.cpp 298-308): clears the content access map and resets
the CFD counter (the NAND cache flush and `m_is_active` are external to
the modelled state). -/
def ES_Close (s : ESState) : ESState :=
  { s with contentAccessMap := [], accessIdentID := 0 }

/-- The recursion bound used when invoking the launch orchestrator from a
handler; real launch chains reload at most once. -/
def launchFuel : Nat := 8

/-- `ES::AddTicket` (ES.cpp 460-472): the ticket bytes go to the external
ticket store; no device state is touched. -/
def ES_AddTicket (env : Env) (req : Request) (s : ESState) : ESState × Reply :=
  if !(hasVectors req 3 0) then
    (s, Reply.default ES_PARAMETER_SIZE_OR_ALIGNMENT)
  else
    (s, Reply.default IPC_SUCCESS)

/-- `ES::AddTMD` (ES.cpp 484-503): decodes the TMD into `m_addtitle_tmd`
(before checking its validity), then persists it. -/
def ES_AddTMD (env : Env) (req : Request) (s : ESState) : ESState × Reply :=
  if !(hasVectors req 1 0) then
    (s, Reply.default ES_PARAMETER_SIZE_OR_ALIGNMENT)
  else
    let tmd := env.tmdAt (vecAt req.inVectors 0).address (vecAt req.inVectors 0).size
    let s1 := { s with addtitle_tmd := tmd }
    if !tmd.valid then (s1, Reply.default ES_INVALID_TMD)
    else if !(env.writeTMDOk tmd) then (s1, Reply.default ES_WRITE_FAILURE)
    else (s1, Reply.default IPC_SUCCESS)

/-- `ES::AddTitleStart` (ES.cpp 505-528): like `AddTMD` with four input
vectors, additionally registering the title in the uid index (external). -/
def ES_AddTitleStart (env : Env) (req : Request) (s : ESState) : ESState × Reply :=
  if !(hasVectors req 4 0) then
    (s, Reply.default ES_PARAMETER_SIZE_OR_ALIGNMENT)
  else
    let tmd := env.tmdAt (vecAt req.inVectors 0).address (vecAt req.inVectors 0).size
    let s1 := { s with addtitle_tmd := tmd }
    if !tmd.valid then (s1, Reply.default ES_INVALID_TMD)
    else if !(env.writeTMDOk tmd) then (s1, Reply.default ES_WRITE_FAILURE)
    else (s1, Reply.default IPC_SUCCESS)

/-- `ES::AddContentStart` (ES.cpp 530-568): rejects a second in-flight
content transfer with `ES_WRITE_FAILURE` before touching any state;
otherwise records the content id, clears the accumulator, and returns the
content fd `0` (a title-id mismatch with the pending TMD only logs). -/
def ES_AddContentStart (env : Env) (req : Request) (s : ESState) : ESState × Reply :=
  if !(hasVectors req 2 0) then
    (s, Reply.default ES_PARAMETER_SIZE_OR_ALIGNMENT)
  else
    let content_id := ru32 env (vecAt req.inVectors 1).address
    if s.addtitle_content_id != 0xFFFFFFFF then
      (s, Reply.default ES_WRITE_FAILURE)
    else
      let s1 := { s with addtitle_content_id := content_id,
                         addtitle_content_buffer := [] }
      if !s.addtitle_tmd.valid then
        (s1, Reply.default ES_PARAMETER_SIZE_OR_ALIGNMENT)
      else
        (s1, Reply.default 0)

/-- `ES::AddContentData` (ES.cpp 570-584): appends the guest bytes to the
in-memory accumulator. -/
def ES_AddContentData (env : Env) (req : Request) (s : ESState) : ESState × Reply :=
  if !(hasVectors req 2 0) then
    (s, Reply.default ES_PARAMETER_SIZE_OR_ALIGNMENT)
  else
    let data := env.bytesAt (vecAt req.inVectors 1).address (vecAt req.inVectors 1).size
    ({ s with addtitle_content_buffer := s.addtitle_content_buffer ++ data },
      Reply.default IPC_SUCCESS)

/-- `ES::AddContentFinish` (ES.cpp 586-640): finds an installed signed
ticket, decrypts the accumulated buffer with the title key and the
index-derived IV (the plaintext goes to NAND, external), and clears the
pending content id. -/
def ES_AddContentFinish (env : Env) (req : Request) (s : ESState) : ESState × Reply :=
  if !(hasVectors req 1 0) then
    (s, Reply.default ES_PARAMETER_SIZE_OR_ALIGNMENT)
  else if !s.addtitle_tmd.valid then
    (s, Reply.default ES_PARAMETER_SIZE_OR_ALIGNMENT)
  else
    let ticket := env.findTicket s.addtitle_tmd.titleId
    if !ticket.valid then
      (s, Reply.default ES_NO_TICKET_INSTALLED)
    else
      match s.addtitle_tmd.findContentById s.addtitle_content_id with
      | none => (s, Reply.default ES_INVALID_TMD)
      | some content_info =>
        let iv := makeContentIV content_info.index
        let _decrypted :=
          cbcDec env.cipher (ticket.titleKey.take 16) iv s.addtitle_content_buffer
        ({ s with addtitle_content_id := 0xFFFFFFFF }, Reply.default IPC_SUCCESS)

/-- `ES::AddTitleFinish` (ES.cpp 642-650): requires a still-valid pending
TMD, then clears it. -/
def ES_AddTitleFinish (env : Env) (req : Request) (s : ESState) : ESState × Reply :=
  if !(hasVectors req 0 0) || !s.addtitle_tmd.valid then
    (s, Reply.default ES_PARAMETER_SIZE_OR_ALIGNMENT)
  else
    ({ s with addtitle_tmd := TMD.empty }, Reply.default IPC_SUCCESS)

/-- `ES::ESGetDeviceID` (ES.cpp 652-661). -/
def ES_GetDeviceID (env : Env) (req : Request) (s : ESState) : ESState × Reply :=
  if !(hasVectors req 0 1) then
    (s, Reply.default ES_PARAMETER_SIZE_OR_ALIGNMENT)
  else
    (s, Reply.default IPC_SUCCESS)

/-- `ES::GetTitleContentsCount` (ES.cpp 663-685). -/
def ES_GetTitleContentsCount (env : Env) (req : Request) (s : ESState) : ESState × Reply :=
  if !(hasVectors req 1 1) then
    (s, Reply.default ES_PARAMETER_SIZE_OR_ALIGNMENT)
  else
    let loader := accessContentDevice env s (ru64 env (vecAt req.inVectors 0).address)
    if !loader.valid || !loader.tmd.valid then
      (s, Reply.default ES_PARAMETER_SIZE_OR_ALIGNMENT)
    else
      (s, Reply.default IPC_SUCCESS)

/-- `ES::GetTitleContents` (ES.cpp 687-706). -/
def ES_GetTitleContents (env : Env) (req : Request) (s : ESState) : ESState × Reply :=
  if !(hasVectors req 2 1) then
    (s, Reply.default ES_PARAMETER_SIZE_OR_ALIGNMENT)
  else
    let loader := accessContentDevice env s (ru64 env (vecAt req.inVectors 0).address)
    if !loader.valid || !loader.tmd.valid then
      (s, Reply.default ES_PARAMETER_SIZE_OR_ALIGNMENT)
    else
      (s, Reply.default IPC_SUCCESS)

/-- `u32 ES::OpenTitleContent(u32 CFD, u64 TitleID, u16 Index)` (ES.cpp
310-336): returns the all-ones sentinel for an invalid loader or a
missing content index, otherwise records the opened content under the
given CFD and returns it. -/
def openTitleContentInner (env : Env) (s : ESState) (cfd title_id index : Nat) :
    ESState × Nat :=
  let loader := accessContentDevice env s title_id
  if !loader.valid || !loader.tmd.valid || !loader.ticket.valid then
    (s, 0xffffffff)
  else
    match loader.tmd.findContentByIndex index with
    | none => (s, 0xffffffff)
    | some c =>
      let oc : OpenedContent := { m_title_id := title_id, m_content := c, m_position := 0 }
      ({ s with contentAccessMap := minsert s.contentAccessMap cfd oc }, cfd)

/-- `ES::OpenTitleContent` ioctlv (ES.cpp 708-722): the CFD counter
`m_AccessIdentID` is post-incremented on the call, success or not. -/
def ES_OpenTitleContent (env : Env) (req : Request) (s : ESState) : ESState × Reply :=
  if !(hasVectors req 3 0) then
    (s, Reply.default ES_PARAMETER_SIZE_OR_ALIGNMENT)
  else
    let title_id := ru64 env (vecAt req.inVectors 0).address
    let index := ru32 env (vecAt req.inVectors 2).address
    let cfd := s.accessIdentID
    let s1 := { s with accessIdentID := u32 (s.accessIdentID + 1) }
    let r := openTitleContentInner env s1 cfd title_id (index % 65536)
    (r.1, Reply.default (toS32 r.2))

/-- `ES::OpenContent` (ES.cpp 724-737): like `OpenTitleContent` for the
active title; rejected before the counter increment when no title context
is active. -/
def ES_OpenContent (env : Env) (req : Request) (s : ESState) : ESState × Reply :=
  if !(hasVectors req 1 0) then
    (s, Reply.default ES_PARAMETER_SIZE_OR_ALIGNMENT)
  else
    let index := ru32 env (vecAt req.inVectors 0).address
    if !s.titleContext.active then
      (s, Reply.default ES_PARAMETER_SIZE_OR_ALIGNMENT)
    else
      let cfd := s.accessIdentID
      let s1 := { s with accessIdentID := u32 (s.accessIdentID + 1) }
      let r := openTitleContentInner env s1 cfd s.titleContext.tmd.titleId (index % 65536)
      (r.1, Reply.default (toS32 r.2))

/-- `ES::ReadContent` (ES.cpp 739-789): clamps the requested size with the
32-bit unsigned subtraction `static_cast<u32>(size) - position`, advances
the position by the clamped size (whether or not the backing read
succeeds) and replies with the clamped size as an `s32`. -/
def ES_ReadContent (env : Env) (req : Request) (s : ESState) : ESState × Reply :=
  if !(hasVectors req 1 1) then
    (s, Reply.default ES_PARAMETER_SIZE_OR_ALIGNMENT)
  else
    let CFD := ru32 env (vecAt req.inVectors 0).address
    let Size0 := (vecAt req.ioVectors 0).size
    let Addr := (vecAt req.ioVectors 0).address
    match mfind s.contentAccessMap CFD with
    | none => (s, Reply.default (-1))
    | some c =>
      let Size :=
        if u32 (c.m_position + Size0) > c.m_content.size then
          u32 (u32 c.m_content.size + (4294967296 - u32 c.m_position))
        else Size0
      if Size > 0 then
        if env.ptrOK Addr then
          let c1 := { c with m_position := u32 (c.m_position + Size) }
          ({ s with contentAccessMap := minsert s.contentAccessMap CFD c1 },
            Reply.default (toS32 Size))
        else
          (s, Reply.default (toS32 Size))
      else
        (s, Reply.default (toS32 Size))

/-- `ES::CloseContent` (ES.cpp 791-818): closing an unknown CFD is an
error (`-1`); otherwise the backing stream is closed (external) and the
slot removed. -/
def ES_CloseContent (env : Env) (req : Request) (s : ESState) : ESState × Reply :=
  if !(hasVectors req 1 0) then
    (s, Reply.default ES_PARAMETER_SIZE_OR_ALIGNMENT)
  else
    let CFD := ru32 env (vecAt req.inVectors 0).address
    match mfind s.contentAccessMap CFD with
    | none => (s, Reply.default (-1))
    | some _ =>
      ({ s with contentAccessMap := merase s.contentAccessMap CFD },
        Reply.default IPC_SUCCESS)

/-- `ES::SeekContent` (ES.cpp 820-855): sets the position with 32-bit
wraparound and without any bounds check against the content size; an
unknown mode leaves the position unchanged; replies with the position. -/
def ES_SeekContent (env : Env) (req : Request) (s : ESState) : ESState × Reply :=
  if !(hasVectors req 3 0) then
    (s, Reply.default ES_PARAMETER_SIZE_OR_ALIGNMENT)
  else
    let CFD := ru32 env (vecAt req.inVectors 0).address
    let Addr := ru32 env (vecAt req.inVectors 1).address
    let Mode := ru32 env (vecAt req.inVectors 2).address
    match mfind s.contentAccessMap CFD with
    | none => (s, Reply.default (-1))
    | some c =>
      let newpos :=
        if Mode == 0 then Addr
        else if Mode == 1 then u32 (c.m_position + Addr)
        else if Mode == 2 then u32 (u32 c.m_content.size + Addr)
        else c.m_position
      let c1 := { c with m_position := newpos }
      ({ s with contentAccessMap := minsert s.contentAccessMap CFD c1 },
        Reply.default (toS32 newpos))

/-- `ES::GetTitleDirectory` (ES.cpp 857-869). -/
def ES_GetTitleDirectory (env : Env) (req : Request) (s : ESState) : ESState × Reply :=
  if !(hasVectors req 1 1) then
    (s, Reply.default ES_PARAMETER_SIZE_OR_ALIGNMENT)
  else
    (s, Reply.default IPC_SUCCESS)

/-- `ES::GetTitleID` (ES.cpp 871-884). -/
def ES_GetTitleID (env : Env) (req : Request) (s : ESState) : ESState × Reply :=
  if !(hasVectors req 0 1) then
    (s, Reply.default ES_PARAMETER_SIZE_OR_ALIGNMENT)
  else if !s.titleContext.active then
    (s, Reply.default ES_PARAMETER_SIZE_OR_ALIGNMENT)
  else
    (s, Reply.default IPC_SUCCESS)

/-- `ES::SetUID` (ES.cpp 886-895). -/
def ES_SetUID (env : Env) (req : Request) (s : ESState) : ESState × Reply :=
  if !(hasVectors req 1 0) then
    (s, Reply.default ES_PARAMETER_SIZE_OR_ALIGNMENT)
  else
    (s, Reply.default IPC_SUCCESS)

/-- `ES::GetTitleCount(titles, request)` (ES.cpp 983-991): also requires
the single output vector to be exactly 4 bytes. -/
def ES_GetTitleCountBody (titles : List Nat) (req : Request) (s : ESState) :
    ESState × Reply :=
  if !(hasVectors req 0 1) || (vecAt req.ioVectors 0).size != 4 then
    (s, Reply.default ES_PARAMETER_SIZE_OR_ALIGNMENT)
  else
    (s, Reply.default IPC_SUCCESS)

/-- `ES::GetTitles(titles, request)` (ES.cpp 993-1005). -/
def ES_GetTitlesBody (titles : List Nat) (req : Request) (s : ESState) :
    ESState × Reply :=
  if !(hasVectors req 1 1) then
    (s, Reply.default ES_PARAMETER_SIZE_OR_ALIGNMENT)
  else
    (s, Reply.default IPC_SUCCESS)

/-- `ES::GetTitleCount` ioctlv (ES.cpp 1007-1012). -/
def ES_GetTitleCount (env : Env) (req : Request) (s : ESState) : ESState × Reply :=
  ES_GetTitleCountBody env.installedTitles req s

/-- `ES::GetTitles` ioctlv (ES.cpp 1014-1017). -/
def ES_GetTitles (env : Env) (req : Request) (s : ESState) : ESState × Reply :=
  ES_GetTitlesBody env.installedTitles req s

/-- `ES::GetOwnedTitleCount` (ES.cpp 1670-1675). -/
def ES_GetOwnedTitleCount (env : Env) (req : Request) (s : ESState) : ESState × Reply :=
  ES_GetTitleCountBody env.ticketTitles req s

/-- `ES::GetOwnedTitles` (ES.cpp 1677-1680). -/
def ES_GetOwnedTitles (env : Env) (req : Request) (s : ESState) : ESState × Reply :=
  ES_GetTitlesBody env.ticketTitles req s

/-- `ES::GetViewCount` (ES.cpp 1019-1039). -/
def ES_GetViewCount (env : Env) (req : Request) (s : ESState) : ESState × Reply :=
  if !(hasVectors req 1 1) then
    (s, Reply.default ES_PARAMETER_SIZE_OR_ALIGNMENT)
  else
    (s, Reply.default IPC_SUCCESS)

/-- `ES::GetViews` (ES.cpp 1041-1066). -/
def ES_GetViews (env : Env) (req : Request) (s : ESState) : ESState × Reply :=
  if !(hasVectors req 2 1) then
    (s, Reply.default ES_PARAMETER_SIZE_OR_ALIGNMENT)
  else
    (s, Reply.default IPC_SUCCESS)

/-- `ES::GetTMDViewSize` (ES.cpp 1068-1086). -/
def ES_GetTMDViewSize (env : Env) (req : Request) (s : ESState) : ESState × Reply :=
  if !(hasVectors req 1 1) then
    (s, Reply.default ES_PARAMETER_SIZE_OR_ALIGNMENT)
  else
    let loader := accessContentDevice env s (ru64 env (vecAt req.inVectors 0).address)
    if !loader.valid then (s, Reply.default FS_ENOENT)
    else (s, Reply.default IPC_SUCCESS)

/-- `ES::GetTMDViews` (ES.cpp 1088-1113). -/
def ES_GetTMDViews (env : Env) (req : Request) (s : ESState) : ESState × Reply :=
  if !(hasVectors req 2 1) then
    (s, Reply.default ES_PARAMETER_SIZE_OR_ALIGNMENT)
  else
    let loader := accessContentDevice env s (ru64 env (vecAt req.inVectors 0).address)
    if !loader.valid then (s, Reply.default FS_ENOENT)
    else if loader.tmd.viewSize != (vecAt req.ioVectors 0).size then
      (s, Reply.default ES_PARAMETER_SIZE_OR_ALIGNMENT)
    else (s, Reply.default IPC_SUCCESS)

/-- `ES::DIGetTMDViewSize` (ES.cpp 1115-1154). -/
def ES_DIGetTMDViewSize (env : Env) (req : Request) (s : ESState) : ESState × Reply :=
  if !(hasVectors req 1 1) then
    (s, Reply.default ES_PARAMETER_SIZE_OR_ALIGNMENT)
  else if (vecAt req.inVectors 0).size ≥ 4194304 then
    (s, Reply.default ES_PARAMETER_SIZE_OR_ALIGNMENT)
  else if (vecAt req.ioVectors 0).size != 4 then
    (s, Reply.default ES_PARAMETER_SIZE_OR_ALIGNMENT)
  else if (vecAt req.inVectors 0).size != 0 then
    let tmd := env.tmdAt (vecAt req.inVectors 0).address (vecAt req.inVectors 0).size
    if !tmd.valid then (s, Reply.default ES_PARAMETER_SIZE_OR_ALIGNMENT)
    else (s, Reply.default IPC_SUCCESS)
  else if !s.titleContext.active then
    (s, Reply.default ES_PARAMETER_SIZE_OR_ALIGNMENT)
  else
    (s, Reply.default IPC_SUCCESS)

/-- `ES::DIGetTMDView` (ES.cpp 1156-1200). -/
def ES_DIGetTMDView (env : Env) (req : Request) (s : ESState) : ESState × Reply :=
  if !(hasVectors req 2 1) then
    (s, Reply.default ES_PARAMETER_SIZE_OR_ALIGNMENT)
  else if (vecAt req.inVectors 0).size ≥ 4194304 then
    (s, Reply.default ES_PARAMETER_SIZE_OR_ALIGNMENT)
  else if (vecAt req.inVectors 1).size != 4
      || ru32 env (vecAt req.inVectors 1).address != (vecAt req.ioVectors 0).size then
    (s, Reply.default ES_PARAMETER_SIZE_OR_ALIGNMENT)
  else if (vecAt req.inVectors 0).size != 0 then
    let tmd := env.tmdAt (vecAt req.inVectors 0).address (vecAt req.inVectors 0).size
    if !tmd.valid then (s, Reply.default ES_PARAMETER_SIZE_OR_ALIGNMENT)
    else if tmd.viewSize != (vecAt req.ioVectors 0).size then
      (s, Reply.default ES_PARAMETER_SIZE_OR_ALIGNMENT)
    else (s, Reply.default IPC_SUCCESS)
  else if !s.titleContext.active then
    (s, Reply.default ES_PARAMETER_SIZE_OR_ALIGNMENT)
  else if s.titleContext.tmd.viewSize != (vecAt req.ioVectors 0).size then
    (s, Reply.default ES_PARAMETER_SIZE_OR_ALIGNMENT)
  else
    (s, Reply.default IPC_SUCCESS)

/-- `ES::GetConsumption` (ES.cpp 1202-1211). -/
def ES_GetConsumption (env : Env) (req : Request) (s : ESState) : ESState × Reply :=
  if !(hasVectors req 1 2) then
    (s, Reply.default ES_PARAMETER_SIZE_OR_ALIGNMENT)
  else
    (s, Reply.default IPC_SUCCESS)

/-- `CanDeleteTitle` (ES.cpp 1213-1217): only non-system titles, or system
titles above `00000001-00000101`, may be deleted. -/
def CanDeleteTitle (title_id : Nat) : Bool :=
  u32 (title_id >>> 32) != 1 || u32 title_id > 0x101

/-- `ES::DeleteTitle` (ES.cpp 1219-1245). -/
def ES_DeleteTitle (env : Env) (req : Request) (s : ESState) : ESState × Reply :=
  if !(hasVectors req 1 0) || (vecAt req.inVectors 0).size != 8 then
    (s, Reply.default ES_PARAMETER_SIZE_OR_ALIGNMENT)
  else
    let title_id := ru64 env (vecAt req.inVectors 0).address
    if !CanDeleteTitle title_id then
      (s, Reply.default ES_PARAMETER_SIZE_OR_ALIGNMENT)
    else if !(env.titleDirExists title_id) || !(env.removeTitleOk title_id) then
      (s, Reply.default FS_ENOENT)
    else if !(env.deleteDirOk title_id) then
      (s, Reply.default FS_EACCESS)
    else
      (s, Reply.default IPC_SUCCESS)

/-- `ES::DeleteTicket` (ES.cpp 1247-1260). -/
def ES_DeleteTicket (env : Env) (req : Request) (s : ESState) : ESState × Reply :=
  if !(hasVectors req 1 0) then
    (s, Reply.default ES_PARAMETER_SIZE_OR_ALIGNMENT)
  else if !(env.deleteTicketOk (ru64 env (vecAt req.inVectors 0).address)) then
    (s, Reply.default ES_PARAMETER_SIZE_OR_ALIGNMENT)
  else
    (s, Reply.default IPC_SUCCESS)

/-- `ES::DeleteTitleContent` (ES.cpp 1262-1276). -/
def ES_DeleteTitleContent (env : Env) (req : Request) (s : ESState) : ESState × Reply :=
  if !(hasVectors req 1 0) then
    (s, Reply.default ES_PARAMETER_SIZE_OR_ALIGNMENT)
  else if !(env.removeTitleOk (ru64 env (vecAt req.inVectors 0).address)) then
    (s, Reply.default ES_PARAMETER_SIZE_OR_ALIGNMENT)
  else
    (s, Reply.default IPC_SUCCESS)

/-- `ES::GetStoredTMDSize` (ES.cpp 1278-1296). -/
def ES_GetStoredTMDSize (env : Env) (req : Request) (s : ESState) : ESState × Reply :=
  if !(hasVectors req 1 1) then
    (s, Reply.default ES_PARAMETER_SIZE_OR_ALIGNMENT)
  else
    let loader := accessContentDevice env s (ru64 env (vecAt req.inVectors 0).address)
    if !loader.valid || !loader.tmd.valid then (s, Reply.default FS_ENOENT)
    else (s, Reply.default IPC_SUCCESS)

/-- `ES::GetStoredTMD` (ES.cpp 1298-1320). -/
def ES_GetStoredTMD (env : Env) (req : Request) (s : ESState) : ESState × Reply :=
  if !(hasVectors req 2 1) then
    (s, Reply.default ES_PARAMETER_SIZE_OR_ALIGNMENT)
  else
    let loader := accessContentDevice env s (ru64 env (vecAt req.inVectors 0).address)
    if !loader.valid || !loader.tmd.valid then (s, Reply.default FS_ENOENT)
    else if loader.tmd.rawSize != (vecAt req.ioVectors 0).size then
      (s, Reply.default ES_PARAMETER_SIZE_OR_ALIGNMENT)
    else (s, Reply.default IPC_SUCCESS)

/-- `ES::Encrypt` (ES.cpp 1322-1342): the cipher output and the new IV go
to guest memory (external); always replies success. -/
def ES_Encrypt (env : Env) (req : Request) (s : ESState) : ESState × Reply :=
  if !(hasVectors req 3 2) then
    (s, Reply.default ES_PARAMETER_SIZE_OR_ALIGNMENT)
  else
    let keyIndex := ru32 env (vecAt req.inVectors 0).address
    let iv := env.bytesAt (vecAt req.inVectors 1).address 16
    let src := env.bytesAt (vecAt req.inVectors 2).address (vecAt req.inVectors 2).size
    let _out := EncryptBody env.cipher keyIndex iv src
      (List.replicate (vecAt req.inVectors 2).size 0)
    (s, Reply.default IPC_SUCCESS)

/-- `ES::Decrypt` (ES.cpp 1344-1361): delegates to `ES::DecryptContent`;
always replies success. -/
def ES_Decrypt (env : Env) (req : Request) (s : ESState) : ESState × Reply :=
  if !(hasVectors req 3 2) then
    (s, Reply.default ES_PARAMETER_SIZE_OR_ALIGNMENT)
  else
    let keyIndex := ru32 env (vecAt req.inVectors 0).address
    let iv := env.bytesAt (vecAt req.inVectors 1).address 16
    let src := env.bytesAt (vecAt req.inVectors 2).address (vecAt req.inVectors 2).size
    let _out := DecryptContent env.cipher keyIndex iv src
      (List.replicate (vecAt req.inVectors 2).size 0)
    (s, Reply.default IPC_SUCCESS)

/-- `ES::Launch` (ES.cpp 1363-1389): a failed launch is an ordinary
`ES_INVALID_TMD` reply; a successful one acks the command and produces no
reply payload (`GetNoReply`). -/
def ES_Launch (env : Env) (req : Request) (s : ESState) : ESState × Reply :=
  if !(hasVectors req 2 0) then
    (s, Reply.default ES_PARAMETER_SIZE_OR_ALIGNMENT)
  else
    let title_id := ru64 env (vecAt req.inVectors 0).address
    let r := LaunchTitle launchFuel env s title_id false
    if !r.2 then (r.1, Reply.default ES_INVALID_TMD)
    else (r.1, Reply.noReply)

/-- `ES::LaunchBC` (ES.cpp 1391-1406). -/
def ES_LaunchBC (env : Env) (req : Request) (s : ESState) : ESState × Reply :=
  if !(hasVectors req 0 0) then
    (s, Reply.default ES_PARAMETER_SIZE_OR_ALIGNMENT)
  else if env.iosVersion == 0x101 then
    (s, Reply.default ES_PARAMETER_SIZE_OR_ALIGNMENT)
  else
    let r := LaunchTitle launchFuel env s 0x0000000100000100 false
    if !r.2 then (r.1, Reply.default ES_INVALID_TMD)
    else (r.1, Reply.noReply)

/-- `ES::ExportTitleInit` (ES.cpp 1408-1441): no nested exports; the
session TMD is recorded before the ticket checks, the title key after
them, and `valid` only at the very end. -/
def ES_ExportTitleInit (env : Env) (req : Request) (s : ESState) : ESState × Reply :=
  if !(hasVectors req 1 1) || (vecAt req.inVectors 0).size != 8 then
    (s, Reply.default ES_PARAMETER_SIZE_OR_ALIGNMENT)
  else if s.export_title_context.valid then
    (s, Reply.default ES_PARAMETER_SIZE_OR_ALIGNMENT)
  else
    let loader := accessContentDevice env s (ru64 env (vecAt req.inVectors 0).address)
    if !loader.valid then (s, Reply.default FS_ENOENT)
    else if !loader.tmd.valid then (s, Reply.default ES_INVALID_TMD)
    else
      let s1 := { s with export_title_context :=
        { s.export_title_context with tmd := loader.tmd } }
      let ticket := env.findTicket loader.tmd.titleId
      if !ticket.valid then (s1, Reply.default ES_NO_TICKET_INSTALLED)
      else if ticket.titleId != loader.tmd.titleId then
        (s1, Reply.default ES_PARAMETER_SIZE_OR_ALIGNMENT)
      else
        let s2 := { s1 with export_title_context :=
          { s1.export_title_context with title_key := ticket.titleKey } }
        if (vecAt req.ioVectors 0).size != loader.tmd.rawSize then
          (s2, Reply.default ES_PARAMETER_SIZE_OR_ALIGNMENT)
        else
          ({ s2 with export_title_context :=
            { s2.export_title_context with valid := true } },
            Reply.default IPC_SUCCESS)

/-- `ES::ExportContentBegin` (ES.cpp 1443-1484): scans upward from 0 for
the first unused export-content-id, stores the opened content with the
index-derived IV, and replies with the id. -/
def ES_ExportContentBegin (env : Env) (req : Request) (s : ESState) : ESState × Reply :=
  if !(hasVectors req 2 0) || (vecAt req.inVectors 0).size != 8
      || (vecAt req.inVectors 1).size != 4 then
    (s, Reply.default ES_PARAMETER_SIZE_OR_ALIGNMENT)
  else
    let title_id := ru64 env (vecAt req.inVectors 0).address
    let content_id := ru32 env (vecAt req.inVectors 1).address
    if !s.export_title_context.valid
        || s.export_title_context.tmd.titleId != title_id then
      (s, Reply.default ES_PARAMETER_SIZE_OR_ALIGNMENT)
    else
      let loader := accessContentDevice env s title_id
      if !loader.valid then (s, Reply.default FS_ENOENT)
      else
        match loader.tmd.findContentById content_id with
        | none => (s, Reply.default ES_PARAMETER_SIZE_OR_ALIGNMENT)
        | some c =>
          let cid := mex s.export_title_context.contents
          let ce : ExportContent :=
            { content := { m_title_id := title_id, m_content := c, m_position := 0 },
              iv := makeContentIV c.index }
          let contents1 := minsert s.export_title_context.contents cid ce
          let ctx1 := { s.export_title_context with contents := contents1 }
          ({ s with export_title_context := ctx1 }, Reply.default (toS32 cid))

/-- `Common::AlignUp(n, 32)`. -/
def alignUp32 (n : Nat) : Nat := ((n + 31) / 32) * 32

/-- `ES::ExportContentData` (ES.cpp 1486-1539): reads up to the remaining
bytes (clamped through a `u32` cast), pads the buffer to a 32-byte
boundary, encrypts it with the session title key streaming through the
per-stream IV, and advances the position. -/
def ES_ExportContentData (env : Env) (req : Request) (s : ESState) : ESState × Reply :=
  if !(hasVectors req 1 1) || (vecAt req.inVectors 0).size != 4
      || (vecAt req.ioVectors 0).size == 0 then
    (s, Reply.default ES_PARAMETER_SIZE_OR_ALIGNMENT)
  else
    let content_id := ru32 env (vecAt req.inVectors 0).address
    let bytes_to_read := (vecAt req.ioVectors 0).size
    match mfind s.export_title_context.contents content_id with
    | none => (s, Reply.default ES_PARAMETER_SIZE_OR_ALIGNMENT)
    | some ec =>
      if !s.export_title_context.valid
          || ec.content.m_position ≥ ec.content.m_content.size then
        (s, Reply.default ES_PARAMETER_SIZE_OR_ALIGNMENT)
      else
        let data := env.contentBytes ec.content.m_title_id ec.content.m_content.id
        let length :=
          min (u32 (ec.content.m_content.size - ec.content.m_position)) bytes_to_read
        if data.length < ec.content.m_position + length then
          (s, Reply.default ES_READ_LESS_DATA_THAN_EXPECTED)
        else
          let buffer := (data.drop ec.content.m_position).take length
            ++ List.replicate (alignUp32 length - length) 0
          match cbcEnc env.cipher (s.export_title_context.title_key.take 16)
              ec.iv buffer with
          | none => (s, Reply.default ES_PARAMETER_SIZE_OR_ALIGNMENT)
          | some r =>
            let ec1 : ExportContent :=
              { content := { ec.content with
                  m_position := u32 (ec.content.m_position + length) },
                iv := r.2 }
            let contents1 := minsert s.export_title_context.contents content_id ec1
            let ctx1 := { s.export_title_context with contents := contents1 }
            ({ s with export_title_context := ctx1 }, Reply.default IPC_SUCCESS)

/-- `ES::ExportContentEnd` (ES.cpp 1541-1562): requires the stream
position to equal the content size exactly, then closes the stream
(external) and removes the entry. -/
def ES_ExportContentEnd (env : Env) (req : Request) (s : ESState) : ESState × Reply :=
  if !(hasVectors req 1 0) || (vecAt req.inVectors 0).size != 4 then
    (s, Reply.default ES_PARAMETER_SIZE_OR_ALIGNMENT)
  else
    let content_id := ru32 env (vecAt req.inVectors 0).address
    match mfind s.export_title_context.contents content_id with
    | none => (s, Reply.default ES_PARAMETER_SIZE_OR_ALIGNMENT)
    | some ec =>
      if !s.export_title_context.valid
          || ec.content.m_position != ec.content.m_content.size then
        (s, Reply.default ES_PARAMETER_SIZE_OR_ALIGNMENT)
      else
        let contents1 := merase s.export_title_context.contents content_id
        let ctx1 := { s.export_title_context with contents := contents1 }
        ({ s with export_title_context := ctx1 }, Reply.default IPC_SUCCESS)

/-- `ES::ExportTitleDone` (ES.cpp 1564-1571): note there is no vector
shape check; only the session validity gates this handler. -/
def ES_ExportTitleDone (env : Env) (req : Request) (s : ESState) : ESState × Reply :=
  if !s.export_title_context.valid then
    (s, Reply.default ES_PARAMETER_SIZE_OR_ALIGNMENT)
  else
    ({ s with export_title_context :=
        { s.export_title_context with valid := false } },
      Reply.default IPC_SUCCESS)

/-- `ES::CheckKoreaRegion` (ES.cpp 1573-1584): replies `-1017` in both the
malformed and the well-formed case (no Korean keys installed). -/
def ES_CheckKoreaRegion (env : Env) (req : Request) (s : ESState) : ESState × Reply :=
  if !(hasVectors req 0 0) then
    (s, Reply.default ES_PARAMETER_SIZE_OR_ALIGNMENT)
  else
    (s, Reply.default ES_PARAMETER_SIZE_OR_ALIGNMENT)

/-- `ES::GetDeviceCertificate` (ES.cpp 1586-1597). -/
def ES_GetDeviceCert (env : Env) (req : Request) (s : ESState) : ESState × Reply :=
  if !(hasVectors req 0 1) || (vecAt req.ioVectors 0).size != 0x180 then
    (s, Reply.default ES_PARAMETER_SIZE_OR_ALIGNMENT)
  else
    (s, Reply.default IPC_SUCCESS)

/-- `ES::Sign` (ES.cpp 1599-1618). -/
def ES_Sign (env : Env) (req : Request) (s : ESState) : ESState × Reply :=
  if !(hasVectors req 1 2) then
    (s, Reply.default ES_PARAMETER_SIZE_OR_ALIGNMENT)
  else if !s.titleContext.active then
    (s, Reply.default ES_PARAMETER_SIZE_OR_ALIGNMENT)
  else
    (s, Reply.default IPC_SUCCESS)

/-- `ES::GetBoot2Version` (ES.cpp 1620-1630). -/
def ES_GetBoot2Version (env : Env) (req : Request) (s : ESState) : ESState × Reply :=
  if !(hasVectors req 0 1) then
    (s, Reply.default ES_PARAMETER_SIZE_OR_ALIGNMENT)
  else
    (s, Reply.default IPC_SUCCESS)

/-- Modelled from the spec: `sizeof(IOS::ES::TicketView)` (the fixed-size
ticket view summary). -/
def TICKET_VIEW_SIZE : Nat := 0xD8

/-- `ES::DIGetTicketView` (ES.cpp 1632-1668). -/
def ES_DIGetTicketView (env : Env) (req : Request) (s : ESState) : ESState × Reply :=
  if !(hasVectors req 1 1) || (vecAt req.ioVectors 0).size != TICKET_VIEW_SIZE then
    (s, Reply.default ES_PARAMETER_SIZE_OR_ALIGNMENT)
  else
    let has_ticket_vector := (vecAt req.inVectors 0).size == 0x2A4
    if !has_ticket_vector && (vecAt req.inVectors 0).size != 0 then
      (s, Reply.default ES_PARAMETER_SIZE_OR_ALIGNMENT)
    else if !has_ticket_vector && !s.titleContext.active then
      (s, Reply.default ES_PARAMETER_SIZE_OR_ALIGNMENT)
    else
      (s, Reply.default IPC_SUCCESS)

/-- The ioctlv command codes dispatched by `ES::IOCtlV` (ES.cpp 338-458),
one constructor per `case`. -/
inductive ESIoctl where
  | AddTicket | AddTMD | AddTitleStart | AddContentStart | AddContentData
  | AddContentFinish | AddTitleFinish | GetDeviceID | GetTitleContentsCount
  | GetTitleContents | OpenTitleContent | OpenContent | ReadContent
  | CloseContent | SeekContent | GetTitleDir | GetTitleID | SetUID
  | GetOwnedTitleCount | GetOwnedTitles | GetTitleCount | GetTitles
  | GetViewCount | GetViews | DIGetTicketView | GetTMDViewCount | GetTMDViews
  | DIGetTMDViewSize | DIGetTMDView | GetConsumption | DeleteTitle
  | DeleteTicket | DeleteTitleContent | GetStoredTMDSize | GetStoredTMD
  | Encrypt | Decrypt | Launch | LaunchBC | ExportTitleInit
  | ExportContentBegin | ExportContentData | ExportContentEnd | ExportTitleDone
  | CheckKoreaRegion | GetDeviceCert | Sign | GetBoot2Version
  deriving Repr, DecidableEq

/-- `ES::IOCtlV` routing (ES.cpp 349-455).  The defensive zero-fill of the
output buffers touches guest memory only, never the device state. -/
def handleIoctl : ESIoctl → Env → Request → ESState → ESState × Reply
  | .AddTicket => ES_AddTicket
  | .AddTMD => ES_AddTMD
  | .AddTitleStart => ES_AddTitleStart
  | .AddContentStart => ES_AddContentStart
  | .AddContentData => ES_AddContentData
  | .AddContentFinish => ES_AddContentFinish
  | .AddTitleFinish => ES_AddTitleFinish
  | .GetDeviceID => ES_GetDeviceID
  | .GetTitleContentsCount => ES_GetTitleContentsCount
  | .GetTitleContents => ES_GetTitleContents
  | .OpenTitleContent => ES_OpenTitleContent
  | .OpenContent => ES_OpenContent
  | .ReadContent => ES_ReadContent
  | .CloseContent => ES_CloseContent
  | .SeekContent => ES_SeekContent
  | .GetTitleDir => ES_GetTitleDirectory
  | .GetTitleID => ES_GetTitleID
  | .SetUID => ES_SetUID
  | .GetOwnedTitleCount => ES_GetOwnedTitleCount
  | .GetOwnedTitles => ES_GetOwnedTitles
  | .GetTitleCount => ES_GetTitleCount
  | .GetTitles => ES_GetTitles
  | .GetViewCount => ES_GetViewCount
  | .GetViews => ES_GetViews
  | .DIGetTicketView => ES_DIGetTicketView
  | .GetTMDViewCount => ES_GetTMDViewSize
  | .GetTMDViews => ES_GetTMDViews
  | .DIGetTMDViewSize => ES_DIGetTMDViewSize
  | .DIGetTMDView => ES_DIGetTMDView
  | .GetConsumption => ES_GetConsumption
  | .DeleteTitle => ES_DeleteTitle
  | .DeleteTicket => ES_DeleteTicket
  | .DeleteTitleContent => ES_DeleteTitleContent
  | .GetStoredTMDSize => ES_GetStoredTMDSize
  | .GetStoredTMD => ES_GetStoredTMD
  | .Encrypt => ES_Encrypt
  | .Decrypt => ES_Decrypt
  | .Launch => ES_Launch
  | .LaunchBC => ES_LaunchBC
  | .ExportTitleInit => ES_ExportTitleInit
  | .ExportContentBegin => ES_ExportContentBegin
  | .ExportContentData => ES_ExportContentData
  | .ExportContentEnd => ES_ExportContentEnd
  | .ExportTitleDone => ES_ExportTitleDone
  | .CheckKoreaRegion => ES_CheckKoreaRegion
  | .GetDeviceCert => ES_GetDeviceCert
  | .Sign => ES_Sign
  | .GetBoot2Version => ES_GetBoot2Version

/-- The exact (input-count, output-count) each handler accepts — the first
`HasNumberOfValidVectors` argument pair of each handler.  `ExportTitleDone`
performs no shape check in the source; the pair recorded here is the
shape IOS documents for it (no vectors). -/
def expectedShape : ESIoctl → Nat × Nat
  | .AddTicket => (3, 0)
  | .AddTMD => (1, 0)
  | .AddTitleStart => (4, 0)
  | .AddContentStart => (2, 0)
  | .AddContentData => (2, 0)
  | .AddContentFinish => (1, 0)
  | .AddTitleFinish => (0, 0)
  | .GetDeviceID => (0, 1)
  | .GetTitleContentsCount => (1, 1)
  | .GetTitleContents => (2, 1)
  | .OpenTitleContent => (3, 0)
  | .OpenContent => (1, 0)
  | .ReadContent => (1, 1)
  | .CloseContent => (1, 0)
  | .SeekContent => (3, 0)
  | .GetTitleDir => (1, 1)
  | .GetTitleID => (0, 1)
  | .SetUID => (1, 0)
  | .GetOwnedTitleCount => (0, 1)
  | .GetOwnedTitles => (1, 1)
  | .GetTitleCount => (0, 1)
  | .GetTitles => (1, 1)
  | .GetViewCount => (1, 1)
  | .GetViews => (2, 1)
  | .DIGetTicketView => (1, 1)
  | .GetTMDViewCount => (1, 1)
  | .GetTMDViews => (2, 1)
  | .DIGetTMDViewSize => (1, 1)
  | .DIGetTMDView => (2, 1)
  | .GetConsumption => (1, 2)
  | .DeleteTitle => (1, 0)
  | .DeleteTicket => (1, 0)
  | .DeleteTitleContent => (1, 0)
  | .GetStoredTMDSize => (1, 1)
  | .GetStoredTMD => (2, 1)
  | .Encrypt => (3, 2)
  | .Decrypt => (3, 2)
  | .Launch => (2, 0)
  | .LaunchBC => (0, 0)
  | .ExportTitleInit => (1, 1)
  | .ExportContentBegin => (2, 0)
  | .ExportContentData => (1, 1)
  | .ExportContentEnd => (1, 0)
  | .ExportTitleDone => (0, 0)
  | .CheckKoreaRegion => (0, 0)
  | .GetDeviceCert => (0, 1)
  | .Sign => (1, 2)
  | .GetBoot2Version => (0, 1)

/-! ## Session traces over the content access table

The open/close requests of one device session (between `ES::Open` and
`ES::Close`), used to state the CFD-monotonicity invariant. -/

/-- One public content-table operation: open-by-title-and-index
(`IOCTL_ES_OPENTITLECONTENT`), open-on-the-active-title
(`IOCTL_ES_OPENCONTENT`), or close (`IOCTL_ES_CLOSECONTENT`). -/
inductive SessionOp where
  | openTC : Request → SessionOp
  | openC : Request → SessionOp
  | closeC : Request → SessionOp
  deriving Repr

/-- Dispatch of one session operation. -/
def sessionStep (env : Env) (s : ESState) : SessionOp → ESState × Reply
  | .openTC req => ES_OpenTitleContent env req s
  | .openC req => ES_OpenContent env req s
  | .closeC req => ES_CloseContent env req s

/-- The handle carried by a reply, when it is one: the sentinel
`0xffffffff` and the error codes come out negative through `toS32`, a
successfully allocated CFD non-negative. -/
def replyHandle : Reply → List Nat
  | Reply.default v => if 0 ≤ v then [v.toNat] else []
  | Reply.noReply => []

/-- The handle returned by an open operation, when it succeeded. -/
def stepHandles (env : Env) (s : ESState) : SessionOp → List Nat
  | .openTC req => replyHandle (ES_OpenTitleContent env req s).2
  | .openC req => replyHandle (ES_OpenContent env req s).2
  | .closeC _ => []

/-- A reply carries at most one handle. -/
theorem replyHandle_len (r : Reply) : (replyHandle r).length ≤ 1 := by
  cases r with
  | default v =>
    simp only [replyHandle]
    split <;> simp
  | noReply => simp [replyHandle]

/-- Run a session trace, collecting the successfully returned handles in
order. -/
def runSession (env : Env) : List SessionOp → ESState → ESState × List Nat
  | [], s => (s, [])
  | op :: ops, s =>
    let hs := stepHandles env s op
    let s1 := (sessionStep env s op).1
    let rest := runSession env ops s1
    (rest.1, hs ++ rest.2)

/-! ## Concrete fixtures (used by witnesses and counterexamples) -/

/-- A concrete block cipher whose encrypt and decrypt directions are both
xor with the key — an involution, so decryption inverts encryption. -/
def xorCipher : BlockCipher :=
  { enc := fun k b => xorBytes k b, dec := fun k b => xorBytes k b }

/-- A concrete valid TMD. -/
def tmdV : TMD :=
  { valid := true, titleId := 0x0001000000000001, iosId := 0x0000000100000021,
    groupId := 0, contents := [], rawSize := 0x208, viewSize := 0x58 }

/-- A concrete valid ticket for `tmdV`. -/
def tickV : Ticket :=
  { valid := true, titleId := 0x0001000000000001, titleKey := List.replicate 16 7 }

/-- A concrete valid loader. -/
def loaderV : Loader := { valid := true, tmd := tmdV, ticket := tickV }

/-- An everything-succeeds environment with no installed titles. -/
def env0 : Env :=
  { nand := fun _ => loaderV
    fileLoader := loaderV
    readU16 := fun _ => 0
    readU32 := fun _ => 0
    readU64 := fun _ => 0
    bytesAt := fun _ n => List.replicate n 0
    ptrOK := fun _ => true
    contentBytes := fun _ _ => []
    findTicket := fun _ => Ticket.empty
    tmdAt := fun _ _ => TMD.empty
    writeTMDOk := fun _ => true
    titleDirExists := fun _ => true
    removeTitleOk := fun _ => true
    deleteDirOk := fun _ => true
    deleteTicketOk := fun _ => true
    installedTitles := []
    ticketTitles := []
    reload := fun _ => true
    bootstrap := fun _ => true
    iosVersion := 0
    cipher := xorCipher }

/-- The device state right after construction. -/
def state0 : ESState :=
  { titleContext := TitleContext.init
    titleToLaunch := 0
    contentFileSet := false
    accessIdentID := 0
    contentAccessMap := []
    addtitle_tmd := TMD.empty
    addtitle_content_id := 0xFFFFFFFF
    addtitle_content_buffer := []
    export_title_context :=
      { valid := false, tmd := TMD.empty, title_key := [], contents := [] } }

/-- A request with `n` input vectors and `m` output vectors, all with the
given addresses/sizes taken from simple arithmetic progressions. -/
def mkReq (ins outs : List (Nat × Nat)) : Request :=
  { inVectors := ins.map (fun p => { address := p.1, size := p.2 })
    ioVectors := outs.map (fun p => { address := p.1, size := p.2 }) }

/-! ## C4 : Title Context notification -/

/--
C4.  The claim states that the first successful `update` after a `clear`
fires the "running title changed" notification.  In the code,
`TitleContext::Clear` does not reset `first_change`, so after the very
first successful update the flag stays `false` forever and a
clear-then-update sequence does not re-fire the notification.
Counterexample: starting from a fresh context, update (fires), clear,
update again — the second update succeeds (the context is active again)
but its notification flag is `false`.
-/
theorem C4_counterexample :
    (((TitleContext.init.update tmdV tickV).1.clear).update tmdV tickV).2 = false ∧
    (((TitleContext.init.update tmdV tickV).1.clear).update tmdV tickV).1.active = true ∧
    (TitleContext.init.update tmdV tickV).2 = true := by
  decide

/--
C4 (amended).  `update` succeeds exactly when both the TMD and the ticket
are structurally valid, leaving the context untouched otherwise; a
successful update fires the "running title changed" notification exactly
when the one-time `first_change` flag is still set — which is true after
the context's (re)construction, not after a `clear`: `clear` preserves
the flag, and after any successful update every further successful
update never re-fires the notification.
-/
theorem C4_notification_once (c : TitleContext) (tmd1 tmd2 : TMD) (t1 t2 : Ticket)
    (h1 : tmd1.valid = true) (h2 : t1.valid = true) :
    (∀ tmd t, tmd.valid = false ∨ t.valid = false →
      TitleContext.update c tmd t = (c, false)) ∧
    (c.update tmd1 t1).2 = c.first_change ∧
    (c.update tmd1 t1).1.active = true ∧
    c.clear.first_change = c.first_change ∧
    (((c.update tmd1 t1).1.clear).update tmd2 t2).2 = false ∧
    ((c.update tmd1 t1).1.update tmd2 t2).2 = false ∧
    TitleContext.init.first_change = true := by
  have hc1 : c.update tmd1 t1 =
      ({ ticket := t1, tmd := tmd1, active := true, first_change := false },
        c.first_change) := by
    simp [TitleContext.update, h1, h2]
  have haux : ∀ (c' : TitleContext) a b, c'.first_change = false →
      (TitleContext.update c' a b).2 = false := by
    intro c' a b h
    unfold TitleContext.update
    split
    · rfl
    · exact h
  refine ⟨?_, ?_, ?_, rfl, ?_, ?_, rfl⟩
  · intro tmd t h
    rcases h with h | h <;> simp [TitleContext.update, h]
  · rw [hc1]
  · rw [hc1]
  · exact haux _ _ _ (by rw [hc1]; rfl)
  · exact haux _ _ _ (by rw [hc1])

/-- Witness for C4: the amended statement applied to a concrete context
and concrete valid records. -/
theorem C4_notification_once_witness :
    tmdV.valid = true ∧ tickV.valid = true ∧
    (TitleContext.init.update tmdV tickV).2 = TitleContext.init.first_change := by
  exact ⟨rfl, rfl, (C4_notification_once TitleContext.init tmdV tmdV tickV tickV
    rfl rfl).2.1⟩

/-! ## C7 : no concurrent content add -/

/--
C7.  While a content transfer is in flight (the pending content id is not
the `0xFFFFFFFF` sentinel), a second `AddContentStart` request fails with
`ES_WRITE_FAILURE` and the state — in particular the pending content id
and the accumulated buffer of the first transfer — is returned
completely unchanged.
-/
theorem C7_second_add_rejected (env : Env) (req : Request) (s : ESState)
    (hshape : hasVectors req 2 0 = true)
    (hpending : s.addtitle_content_id ≠ 0xFFFFFFFF) :
    ES_AddContentStart env req s = (s, Reply.default ES_WRITE_FAILURE) := by
  unfold ES_AddContentStart
  simp [hshape, hpending]

/-- Witness for C7: a concrete state with content id `5` pending and a
well-shaped request. -/
theorem C7_second_add_rejected_witness :
    ES_AddContentStart env0 (mkReq [(0, 8), (8, 4)] [])
        { state0 with addtitle_content_id := 5,
                      addtitle_content_buffer := [1, 2, 3] } =
      ({ state0 with addtitle_content_id := 5,
                     addtitle_content_buffer := [1, 2, 3] },
        Reply.default ES_WRITE_FAILURE) :=
  C7_second_add_rejected env0 (mkReq [(0, 8), (8, 4)] [])
    { state0 with addtitle_content_id := 5, addtitle_content_buffer := [1, 2, 3] }
    (by decide) (by decide)

/-! ## C8 : content IVs -/

/--
C8.  The IV used for per-content decryption (`ES::AddContentFinish`) and
for the export content stream setup (`ES::ExportContentBegin`) — both of
which build it as `makeContentIV` — is exactly 16 bytes: the high byte
of the content index, the low byte of the content index, then fourteen
zero bytes; and `ExportContentBegin` stores exactly this IV in the new
export stream entry.
-/
theorem C8_content_iv (index : Nat) (hidx : index < 65536) :
    makeContentIV index =
      ((index >>> 8) &&& 0xFF) :: (index &&& 0xFF) :: List.replicate 14 0 ∧
    makeContentIV index = (index / 256) :: (index % 256) :: List.replicate 14 0 ∧
    (makeContentIV index).length = 16 := by
  have hshape : makeContentIV index =
      ((index >>> 8) &&& 0xFF) :: (index &&& 0xFF) :: List.replicate 14 0 := rfl
  have hlo : index &&& 0xFF = index % 256 := by
    have h := Nat.and_pow_two_sub_one_eq_mod index 8
    norm_num at h
    exact h
  have hhi : (index >>> 8) &&& 0xFF = index / 256 := by
    have h := Nat.and_pow_two_sub_one_eq_mod (index >>> 8) 8
    norm_num at h
    rw [h, Nat.shiftRight_eq_div_pow]
    have hlt : index / 2 ^ 8 < 256 := by omega
    norm_num
    omega
  refine ⟨hshape, ?_, ?_⟩
  · rw [hshape, hhi, hlo]
  · rw [hshape]
    rfl

/-- Witness for C8: the IV for content index `0x0102`. -/
theorem C8_content_iv_witness :
    (0x0102 : Nat) < 65536 ∧
    makeContentIV 0x0102 = 1 :: 2 :: List.replicate 14 0 :=
  ⟨by decide, by rw [(C8_content_iv 0x0102 (by decide)).2.1]⟩

/-! ## C1 : content reads and seeks -/

/-- Lookup after insert-or-assign at the same key. -/
theorem mfind_minsert_self {α : Type} (m : List (Nat × α)) (k : Nat) (v : α) :
    mfind (minsert m k v) k = some v := by
  simp [mfind, minsert, List.find?]

/-- The clamped read size of `ES::ReadContent`, written out: for in-range
positions it is `min n (size - pos)`; for positions past the end the u32
subtraction underflows to `2^32 - (pos - size)`. -/
theorem readSize_eq (pos n size : Nat) (hpos : pos < 4294967296)
    (hsize : size < 4294967296) (hn : pos + n < 4294967296) :
    (if u32 (pos + n) > size then u32 (u32 size + (4294967296 - u32 pos)) else n)
      = if pos ≤ size then min n (size - pos) else 4294967296 - (pos - size) := by
  simp only [u32]
  split_ifs <;> omega

/--
C1 (amended).  For an opened content handle (a live CFD map entry), with
the in-bounds side conditions the C++ `u32` arithmetic needs
(`position < 2^32`, `content.size < 2^32`, `position + n < 2^32`):
a read of `n` bytes from a position `≤ content.size` returns exactly
`min(n, content.size - position)` bytes and advances the position by
exactly that amount; at `position = content.size` it returns zero bytes
and leaves the state unchanged.  But — against the claim's wording — a
position strictly past the end does *not* yield an empty read: the clamp
`static_cast<u32>(size) - position` underflows, the handler reports
`2^32 - (position - size)` "bytes" (a negative `s32`, never zero) and the
position wraps onto `content.size`.  A seek with whence=SET meanwhile
stores any offset without bounds-checking and replies with it.
-/
theorem C1_read_clamp (env : Env) (req : Request) (s : ESState)
    (c : OpenedContent)
    (hshape : hasVectors req 1 1 = true)
    (hfind : mfind s.contentAccessMap (ru32 env (vecAt req.inVectors 0).address)
      = some c)
    (hptr : env.ptrOK (vecAt req.ioVectors 0).address = true)
    (hpos : c.m_position < 4294967296)
    (hsize : c.m_content.size < 4294967296)
    (hn : c.m_position + (vecAt req.ioVectors 0).size < 4294967296) :
    (c.m_position ≤ c.m_content.size →
      (ES_ReadContent env req s).2 = Reply.default (toS32
          (min (vecAt req.ioVectors 0).size (c.m_content.size - c.m_position))) ∧
      mfind (ES_ReadContent env req s).1.contentAccessMap
          (ru32 env (vecAt req.inVectors 0).address) =
        some { c with m_position := c.m_position + min (vecAt req.ioVectors 0).size (c.m_content.size - c.m_position) }) ∧
    (c.m_position = c.m_content.size →
      (ES_ReadContent env req s).2 = Reply.default 0 ∧
      (ES_ReadContent env req s).1 = s) ∧
    (c.m_content.size < c.m_position →
      (ES_ReadContent env req s).2 = Reply.default (toS32
          (4294967296 - (c.m_position - c.m_content.size))) ∧
      (ES_ReadContent env req s).2 ≠ Reply.default 0 ∧
      mfind (ES_ReadContent env req s).1.contentAccessMap
          (ru32 env (vecAt req.inVectors 0).address) =
        some { c with m_position := c.m_content.size }) ∧
    (∀ req2, hasVectors req2 3 0 = true →
      mfind s.contentAccessMap (ru32 env (vecAt req2.inVectors 0).address) = some c →
      ru32 env (vecAt req2.inVectors 2).address = 0 →
      (ES_SeekContent env req2 s).2 =
        Reply.default (toS32 (ru32 env (vecAt req2.inVectors 1).address)) ∧
      mfind (ES_SeekContent env req2 s).1.contentAccessMap
          (ru32 env (vecAt req2.inVectors 0).address) =
        some { c with m_position := ru32 env (vecAt req2.inVectors 1).address }) := by
  have hSize := readSize_eq c.m_position (vecAt req.ioVectors 0).size
    c.m_content.size hpos hsize hn
  refine ⟨?_, ?_, ?_, ?_⟩
  · intro hle
    by_cases hz : 0 < min (vecAt req.ioVectors 0).size
        (c.m_content.size - c.m_position)
    · have hwrap : u32 (c.m_position + min (vecAt req.ioVectors 0).size
          (c.m_content.size - c.m_position)) =
          c.m_position + min (vecAt req.ioVectors 0).size
            (c.m_content.size - c.m_position) := by
        simp only [u32]
        omega
      simp only [ES_ReadContent, hshape, Bool.not_true, Bool.false_eq_true, if_false,
        hfind, hSize, hle, if_true, hz, hptr, mfind_minsert_self, hwrap]
      exact ⟨True.intro, True.intro⟩
    · have hz0 : min (vecAt req.ioVectors 0).size
          (c.m_content.size - c.m_position) = 0 := by omega
      have hceq : ({ c with m_position := c.m_position + 0 } : OpenedContent) = c := by
        simp
      simp only [ES_ReadContent, hshape, Bool.not_true, Bool.false_eq_true, if_false,
        hfind, hSize, hle, if_true, hz0, Nat.lt_irrefl, hceq, hfind]
      exact ⟨True.intro, True.intro⟩
  · intro heq
    have hle : c.m_position ≤ c.m_content.size := Nat.le_of_eq heq
    have hz0 : min (vecAt req.ioVectors 0).size
        (c.m_content.size - c.m_position) = 0 := by omega
    simp only [ES_ReadContent, hshape, Bool.not_true, Bool.false_eq_true, if_false,
      hfind, hSize, hle, if_true, hz0, Nat.lt_irrefl]
    exact ⟨by decide, True.intro⟩
  · intro hgt
    have hnz : toS32 (4294967296 - (c.m_position - c.m_content.size)) ≠ 0 := by
      have h1 : 0 < c.m_position - c.m_content.size := by omega
      have h2 : c.m_position - c.m_content.size < 4294967296 := by omega
      unfold toS32 u32
      split_ifs <;> omega
    have hwrap : u32 (c.m_position + (4294967296 - (c.m_position - c.m_content.size)))
        = c.m_content.size := by
      simp only [u32]
      omega
    have hnle : ¬ c.m_position ≤ c.m_content.size := by omega
    have hz : 0 < 4294967296 - (c.m_position - c.m_content.size) := by omega
    simp only [ES_ReadContent, hshape, Bool.not_true, Bool.false_eq_true, if_false,
      hfind, hSize, hnle, if_false, hz, if_true, hptr, mfind_minsert_self, hwrap]
    refine ⟨True.intro, ?_, True.intro⟩
    intro hbad
    exact hnz (by injection hbad)
  · intro req2 hshape2 hfind2 hmode
    simp only [ES_SeekContent, hshape2, Bool.not_true, Bool.false_eq_true, if_false,
      hfind2, hmode, mfind_minsert_self]
    simp

/-- The content backing C1's and C10's concrete scenarios: 4 bytes long. -/
def contentC1 : Content :=
  { id := 1, index := 0, size := 4, shared := false, sha1 := [] }

/-- A state with one open handle (CFD 0) on `contentC1`, position 0. -/
def stateC1 : ESState :=
  { state0 with contentAccessMap :=
      [(0, { m_title_id := 77, m_content := contentC1, m_position := 0 })] }

/-- Guest memory for the C1 scenario: the 32-bit word at address 4 reads 5
(the seek offset), all other reads 0. -/
def envC1 : Env := { env0 with readU32 := fun a => if a = 4 then 5 else 0 }

/-- The seek request: CFD at address 0, offset 5 at address 4, whence=SET
at address 8. -/
def seekReqC1 : Request := mkReq [(0, 4), (4, 4), (8, 4)] []

/-- The read request: CFD at address 0, a 4-byte output buffer. -/
def readReqC1 : Request := mkReq [(0, 4)] [(100, 4)]

/--
C1.  Counterexample to the claim as stated: on a 4-byte content, seek the
open handle to position 5 (legal, no bounds check — the reply is the new
position), then read 4 bytes.  The claim says a read at a position past
`content.size` returns zero bytes; the code underflows the `u32` clamp
and replies `-1` (that is, `0xFFFFFFFF` "bytes"), which is not zero.
-/
theorem C1_counterexample :
    (ES_SeekContent envC1 seekReqC1 stateC1).2 = Reply.default 5 ∧
    (mfind (ES_SeekContent envC1 seekReqC1 stateC1).1.contentAccessMap 0).map
        (fun oc => oc.m_position) = some 5 ∧
    contentC1.size = 4 ∧
    (ES_ReadContent envC1 readReqC1
        (ES_SeekContent envC1 seekReqC1 stateC1).1).2 = Reply.default (-1) ∧
    Reply.default (-1) ≠ (Reply.default 0 : Reply) := by
  refine ⟨?_, ?_, rfl, ?_, by decide⟩ <;> decide

/-- Witness for C1: the amended statement applied to the concrete in-range
read (4 requested bytes on the 4-byte content at position 0 return 4
bytes and move the position to 4). -/
theorem C1_read_clamp_witness :
    (ES_ReadContent envC1 readReqC1 stateC1).2 = Reply.default (toS32 (min 4 4)) := by
  have h := (C1_read_clamp envC1 readReqC1 stateC1
    { m_title_id := 77, m_content := contentC1, m_position := 0 }
    (by decide) (by decide) (by decide) (by decide) (by decide) (by decide)).1
    (by decide)
  exact h.1

/-! ## C3 : launch orchestration -/

/--
C3.  Counterexample to the claim as stated: launching the system title
`00000001-00000100` (system type, not the system menu) with
`skip_reload = false` does *not* record it as pending-to-launch —
`s_title_to_launch` stays `0` — because `ES::LaunchTitle` branches
straight into `LaunchIOS` (a reload to that very title) for system
titles; only the `LaunchPPCTitle` path records a pending title.
-/
theorem C3_counterexample :
    isSystemTitle 0x0000000100000100 = true ∧
    (0x0000000100000100 : Nat) ≠ TITLEID_SYSMENU ∧
    (LaunchTitle 2 env0 state0 0x0000000100000100 false).1.titleToLaunch = 0 ∧
    (0 : Nat) ≠ 0x0000000100000100 ∧
    (LaunchTitle 2 env0 state0 0x0000000100000100 false).2
      = env0.reload 0x0000000100000100 := by
  refine ⟨by decide, by decide, by decide, by decide, by decide⟩

/--
C3 (amended).  Launching a *system* title other than the system menu
(with any `skip_reload`) never records a pending title: it clears the
title context and directly returns the outcome of reloading IOS to that
title.  It is launching a *non-system* title (or the system menu) with
`skip_reload = false` that — when the title's loader, TMD and ticket are
valid and the TMD's required IOS is a system title — records the title id
as pending-to-launch and returns the outcome of reloading to the
required IOS version rather than a direct bootstrap.
-/
theorem C3_launch_paths (fuel : Nat) (env : Env) (s : ESState) (title_id : Nat) :
    (∀ skip, isSystemTitle title_id = true → title_id ≠ TITLEID_SYSMENU →
      LaunchTitle fuel env s title_id skip =
        ({ s with titleContext := s.titleContext.clear }, env.reload title_id)) ∧
    ((isSystemTitle title_id = false ∨ title_id = TITLEID_SYSMENU) →
      (env.nand title_id).valid = true →
      (env.nand title_id).tmd.valid = true →
      (env.nand title_id).ticket.valid = true →
      isSystemTitle (env.nand title_id).tmd.iosId = true →
      (env.nand title_id).tmd.iosId ≠ TITLEID_SYSMENU →
      LaunchTitle (fuel + 1) env s title_id false =
        ({ s with titleContext := s.titleContext.clear, titleToLaunch := title_id },
          env.reload (env.nand title_id).tmd.iosId)) := by
  constructor
  · intro skip hsys hnm
    cases fuel <;> simp [LaunchTitle, launchTitleCore, LaunchIOS, hsys, hnm]
  · intro hns hld htmd htk hreq hreqm
    have hacc : accessContentDevice env
        { s with titleContext := s.titleContext.clear } title_id = env.nand title_id := by
      simp [accessContentDevice, TitleContext.clear]
    have ha : ∀ (f : Nat) (s0 : ESState),
        LaunchTitle f env s0 (env.nand title_id).tmd.iosId false =
          ({ s0 with titleContext := s0.titleContext.clear },
            env.reload (env.nand title_id).tmd.iosId) := by
      intro f s0
      cases f <;> simp [LaunchTitle, launchTitleCore, LaunchIOS, hreq, hreqm]
    simp only [TitleContext.clear] at hacc ha
    rcases hns with h | h
    · simp [LaunchTitle, launchTitleCore, h, hacc, hld, htmd, htk, ha,
        TitleContext.clear]
    · subst h
      simp [LaunchTitle, launchTitleCore, hacc, hld, htmd, htk, ha,
        TitleContext.clear]

/-- Witness for C3: launching the non-system title `00010000-00000001`
from the fresh state records it as pending and reloads to its required
IOS `00000001-00000021`; the system-title clause applied to
`00000001-00000100` reloads directly. -/
theorem C3_launch_paths_witness :
    LaunchTitle 3 env0 state0 0x0001000000000001 false =
      ({ state0 with titleContext := state0.titleContext.clear,
                     titleToLaunch := 0x0001000000000001 },
        env0.reload 0x0000000100000021) ∧
    LaunchTitle 2 env0 state0 0x0000000100000100 true =
      ({ state0 with titleContext := state0.titleContext.clear },
        env0.reload 0x0000000100000100) := by
  constructor
  · exact (C3_launch_paths 2 env0 state0 0x0001000000000001).2
      (Or.inl (by decide)) (by decide) (by decide) (by decide) (by decide) (by decide)
  · exact (C3_launch_paths 2 env0 state0 0x0000000100000100).1 true
      (by decide) (by decide)

/-! ## C5 : shape validation before any state mutation -/

/-- A request whose vector counts differ from `(n, m)` fails the
`HasNumberOfValidVectors(n, m)` check. -/
theorem hasVectors_false {req : Request} {n m : Nat}
    (h : (req.inVectors.length, req.ioVectors.length) ≠ (n, m)) :
    hasVectors req n m = false := by
  simp only [hasVectors, Bool.and_eq_false_iff, beq_eq_false_iff_ne, ne_eq,
    Prod.mk.injEq, not_and] at h ⊢
  by_cases h1 : req.inVectors.length = n
  · exact Or.inr (h h1)
  · exact Or.inl h1

/-- An export session context that is live. -/
def stateC5 : ESState :=
  { state0 with export_title_context :=
      { valid := true, tmd := TMD.empty, title_key := [], contents := [] } }

/--
C5.  Counterexample to the claim as stated: `ES::ExportTitleDone` performs
no vector-shape validation at all.  A request with one input vector
(while the command takes none) and a live export session is *not*
rejected with `ES_PARAMETER_SIZE_OR_ALIGNMENT`: the handler clears the
session (`valid := false`, a mutation of service state) and replies
success.
-/
theorem C5_counterexample :
    handleIoctl ESIoctl.ExportTitleDone env0 (mkReq [(0, 4)] []) stateC5
      ≠ (stateC5, Reply.default ES_PARAMETER_SIZE_OR_ALIGNMENT) ∧
    (handleIoctl ESIoctl.ExportTitleDone env0 (mkReq [(0, 4)] []) stateC5).2
      = Reply.default IPC_SUCCESS ∧
    (handleIoctl ESIoctl.ExportTitleDone env0
        (mkReq [(0, 4)] []) stateC5).1.export_title_context.valid = false ∧
    stateC5.export_title_context.valid = true ∧
    ((mkReq [(0, 4)] []).inVectors.length, (mkReq [(0, 4)] []).ioVectors.length)
      ≠ expectedShape ESIoctl.ExportTitleDone := by
  refine ⟨by decide, by decide, by decide, by decide, by decide⟩

/--
C5 (amended).  Every dispatched command handler *except*
`ES::ExportTitleDone` validates the request's vector shape first: a
request whose (input-count, output-count) differs from the declared
shape is rejected with `ES_PARAMETER_SIZE_OR_ALIGNMENT` and the device
state — title context, import session, export session, content access
table, CFD counter — is returned untouched.  `ExportTitleDone` checks no
shape: whenever the export session is live it clears it and replies
success, for a request of any shape.
-/
theorem C5_shape_gate :
    (∀ (c : ESIoctl) (env : Env) (req : Request) (s : ESState),
      c ≠ ESIoctl.ExportTitleDone →
      (req.inVectors.length, req.ioVectors.length) ≠ expectedShape c →
      handleIoctl c env req s = (s, Reply.default ES_PARAMETER_SIZE_OR_ALIGNMENT)) ∧
    (∀ (env : Env) (req : Request) (s : ESState),
      s.export_title_context.valid = true →
      handleIoctl ESIoctl.ExportTitleDone env req s =
        ({ s with export_title_context :=
            { s.export_title_context with valid := false } },
          Reply.default IPC_SUCCESS)) := by
  constructor
  · intro c env req s hne hmis
    cases c <;>
      first
        | exact absurd rfl hne
        | (simp only [expectedShape] at hmis
           have hv := hasVectors_false hmis
           simp [handleIoctl, ES_AddTicket, ES_AddTMD, ES_AddTitleStart,
             ES_AddContentStart, ES_AddContentData, ES_AddContentFinish,
             ES_AddTitleFinish, ES_GetDeviceID, ES_GetTitleContentsCount,
             ES_GetTitleContents, ES_OpenTitleContent, ES_OpenContent,
             ES_ReadContent, ES_CloseContent, ES_SeekContent, ES_GetTitleDirectory,
             ES_GetTitleID, ES_SetUID, ES_GetOwnedTitleCount, ES_GetOwnedTitles,
             ES_GetTitleCount, ES_GetTitles, ES_GetTitleCountBody, ES_GetTitlesBody,
             ES_GetViewCount, ES_GetViews, ES_DIGetTicketView, ES_GetTMDViewSize,
             ES_GetTMDViews, ES_DIGetTMDViewSize, ES_DIGetTMDView, ES_GetConsumption,
             ES_DeleteTitle, ES_DeleteTicket, ES_DeleteTitleContent,
             ES_GetStoredTMDSize, ES_GetStoredTMD, ES_Encrypt, ES_Decrypt,
             ES_Launch, ES_LaunchBC, ES_ExportTitleInit, ES_ExportContentBegin,
             ES_ExportContentData, ES_ExportContentEnd, ES_CheckKoreaRegion,
             ES_GetDeviceCert, ES_Sign, ES_GetBoot2Version, hv])
  · intro env req s hvalid
    simp [handleIoctl, ES_ExportTitleDone, hvalid]

/-- Witness for C5: `AddTicket` with an empty request is rejected without
a state change, and `ExportTitleDone` on a live session clears it. -/
theorem C5_shape_gate_witness :
    handleIoctl ESIoctl.AddTicket env0 (mkReq [] []) state0 =
      (state0, Reply.default ES_PARAMETER_SIZE_OR_ALIGNMENT) ∧
    handleIoctl ESIoctl.ExportTitleDone env0 (mkReq [] []) stateC5 =
      ({ stateC5 with export_title_context :=
          { stateC5.export_title_context with valid := false } },
        Reply.default IPC_SUCCESS) :=
  ⟨C5_shape_gate.1 ESIoctl.AddTicket env0 (mkReq [] []) state0
      (by decide) (by decide),
    C5_shape_gate.2 env0 (mkReq [] []) stateC5 (by decide)⟩

/-! ## C6 : export-content-end and export-id reuse -/

/-- Erasing a key removes it. -/
theorem mfind_merase_self {α : Type} (m : List (Nat × α)) (k : Nat) :
    mfind (merase m k) k = none := by
  have h : (merase m k).find? (fun p => p.1 == k) = none := by
    rw [List.find?_eq_none]
    intro x hx
    rw [merase, List.mem_filter] at hx
    simpa using hx.2
  simp [mfind, h]

/-- Erasing one key leaves every other key's binding unchanged. -/
theorem mfind_merase_ne {α : Type} (m : List (Nat × α)) (k j : Nat) (h : j ≠ k) :
    mfind (merase m k) j = mfind m j := by
  have hfun : (fun a : Nat × α => decide ((!(a.1 == k)) = true ∧ (a.1 == j) = true))
      = fun a : Nat × α => a.1 == j := by
    funext a
    by_cases haj : a.1 = j
    · simp [haj, h]
    · simp [haj]
  simp only [mfind, merase, List.find?_filter, hfun]

/-- A map whose keys include all of `0 .. k-1` has at least `k` entries. -/
theorem length_ge_of_keys {α : Type} (m : List (Nat × α)) (k : Nat)
    (h : ∀ j, j < k → mfind m j ≠ none) : k ≤ m.length := by
  have hsub : (List.range k) ⊆ m.map Prod.fst := by
    intro j hj
    rw [List.mem_range] at hj
    have hne := h j hj
    have hsome : (m.find? (fun p => p.1 == j)).isSome := by
      cases hfp : m.find? (fun p => p.1 == j) with
      | none => exact absurd (by simp [mfind, hfp]) hne
      | some _ => rfl
    rw [List.find?_isSome] at hsome
    obtain ⟨p, hpm, hpj⟩ := hsome
    have hpj2 : p.1 = j := by simpa using hpj
    exact hpj2 ▸ List.mem_map_of_mem Prod.fst hpm
  have hsp : (List.range k).Subperm (m.map Prod.fst) :=
    (List.nodup_range k).subperm hsub
  have := hsp.length_le
  simpa using this

/-- The bounded scan finds `k` when every id below `k` is taken and `k`
is free. -/
theorem mexAux_eq {α : Type} (m : List (Nat × α)) (k : Nat)
    (hall : ∀ j, j < k → mfind m j ≠ none) (hfree : mfind m k = none) :
    ∀ (b k0 : Nat), k0 ≤ k → k - k0 ≤ b → mexAux m b k0 = k := by
  intro b
  induction b with
  | zero =>
    intro k0 hle hb
    have hk : k0 = k := by omega
    simpa [mexAux] using hk
  | succ b ih =>
    intro k0 hle hb
    by_cases hk0 : k0 = k
    · simp [mexAux, hk0, hfree]
    · have hk0lt : k0 < k := by omega
      have htaken := hall k0 hk0lt
      have hs : (mfind m k0).isNone = false := by
        cases hfp : mfind m k0 with
        | none => exact absurd hfp htaken
        | some _ => rfl
      simp only [mexAux, hs, Bool.false_eq_true, if_false]
      exact ih (k0 + 1) (by omega) (by omega)

/-- The allocated export-content-id is exactly `k` whenever the ids below
`k` are all in use and `k` is free — in particular a freed id with no
free id below it is reused by the next allocation. -/
theorem mex_eq_of {α : Type} (m : List (Nat × α)) (k : Nat)
    (hall : ∀ j, j < k → mfind m j ≠ none) (hfree : mfind m k = none) :
    mex m = k := by
  have hk := length_ge_of_keys m k hall
  exact mexAux_eq m k hall hfree (m.length + 1) 0 (Nat.zero_le k) (by omega)

/-- The state after removing one export stream entry, as produced by a
successful `ES::ExportContentEnd`. -/
def eraseExport (s : ESState) (k : Nat) : ESState :=
  { s with export_title_context :=
      { s.export_title_context with contents := merase s.export_title_context.contents k } }

/--
C6.  In a valid export session, `ExportContentEnd` fails with
`ES_PARAMETER_SIZE_OR_ALIGNMENT` and leaves the whole state (the map
entry included) in place while the stream's position differs from the
content's declared size; once the position equals the size it succeeds
and removes the map entry.  `ExportContentBegin` always assigns the
lowest unused export-content-id (`mex`) and stores the new stream under
it — so an id freed by `ExportContentEnd` is reused by a subsequent
`ExportContentBegin` as soon as no smaller id is free (`mex_eq_of` turns
this into `mex = k` whenever all ids below `k` are taken and `k` is
free).
-/
theorem C6_export_end_reuse :
    (∀ (env : Env) (req : Request) (s : ESState) (ec : ExportContent),
      hasVectors req 1 0 = true → (vecAt req.inVectors 0).size = 4 →
      s.export_title_context.valid = true →
      mfind s.export_title_context.contents
        (ru32 env (vecAt req.inVectors 0).address) = some ec →
      ec.content.m_position ≠ ec.content.m_content.size →
      ES_ExportContentEnd env req s =
        (s, Reply.default ES_PARAMETER_SIZE_OR_ALIGNMENT)) ∧
    (∀ (env : Env) (req : Request) (s : ESState) (ec : ExportContent),
      hasVectors req 1 0 = true → (vecAt req.inVectors 0).size = 4 →
      s.export_title_context.valid = true →
      mfind s.export_title_context.contents
        (ru32 env (vecAt req.inVectors 0).address) = some ec →
      ec.content.m_position = ec.content.m_content.size →
      ES_ExportContentEnd env req s =
        (eraseExport s (ru32 env (vecAt req.inVectors 0).address),
          Reply.default IPC_SUCCESS) ∧
      mfind (ES_ExportContentEnd env req s).1.export_title_context.contents
        (ru32 env (vecAt req.inVectors 0).address) = none) ∧
    (∀ (env : Env) (req : Request) (s : ESState) (c : Content),
      hasVectors req 2 0 = true → (vecAt req.inVectors 0).size = 8 →
      (vecAt req.inVectors 1).size = 4 →
      s.export_title_context.valid = true →
      s.export_title_context.tmd.titleId = ru64 env (vecAt req.inVectors 0).address →
      (accessContentDevice env s (ru64 env (vecAt req.inVectors 0).address)).valid
        = true →
      (accessContentDevice env s
          (ru64 env (vecAt req.inVectors 0).address)).tmd.findContentById
        (ru32 env (vecAt req.inVectors 1).address) = some c →
      (ES_ExportContentBegin env req s).2 =
        Reply.default (toS32 (mex s.export_title_context.contents)) ∧
      mfind (ES_ExportContentBegin env req s).1.export_title_context.contents
          (mex s.export_title_context.contents) =
        some { content := { m_title_id := ru64 env (vecAt req.inVectors 0).address,
                            m_content := c, m_position := 0 },
               iv := makeContentIV c.index }) := by
  refine ⟨?_, ?_, ?_⟩
  · intro env req s ec hshape hsz hvalid hfind hne
    simp [ES_ExportContentEnd, hshape, hsz, hvalid, hfind, hne]
  · intro env req s ec hshape hsz hvalid hfind heq
    have h1 : ES_ExportContentEnd env req s =
        (eraseExport s (ru32 env (vecAt req.inVectors 0).address),
          Reply.default IPC_SUCCESS) := by
      simp [ES_ExportContentEnd, eraseExport, hshape, hsz, hvalid, hfind, heq]
    refine ⟨h1, ?_⟩
    rw [h1]
    exact mfind_merase_self _ _
  · intro env req s c hshape hsz0 hsz1 hvalid htid hld hfindc
    simp [ES_ExportContentBegin, hshape, hsz0, hsz1, hvalid, htid, hld, hfindc,
      mfind_minsert_self]

/-- A 4-byte content with id 9 and index 3, used in the C6 scenario. -/
def contentC6 : Content :=
  { id := 9, index := 3, size := 4, shared := false, sha1 := [] }

/-- The TMD of title 7, listing `contentC6`. -/
def tmdC6 : TMD :=
  { valid := true, titleId := 7, iosId := 0x0000000100000021, groupId := 0,
    contents := [contentC6], rawSize := 0x208, viewSize := 0x58 }

/-- A fully consumed export stream on `contentC6` (position = size = 4). -/
def exportDoneEntry : ExportContent :=
  { content := { m_title_id := 7, m_content := contentC6, m_position := 4 },
    iv := makeContentIV 3 }

/-- A second, still open export stream. -/
def exportOpenEntry : ExportContent :=
  { content := { m_title_id := 7, m_content := contentC6, m_position := 0 },
    iv := makeContentIV 3 }

/-- A live export session for title 7 with streams 0 (fully consumed) and
1 (still open). -/
def stateC6 : ESState :=
  { state0 with export_title_context :=
      { valid := true, tmd := tmdC6, title_key := List.replicate 16 7,
        contents := [(0, exportDoneEntry), (1, exportOpenEntry)] } }

/-- Guest memory for the C6 scenario: address 100 holds title id 7,
address 108 holds content id 9, address 0 holds export-content-id 0. -/
def envC6 : Env :=
  { env0 with
    nand := fun t => if t = 7 then { valid := true, tmd := tmdC6, ticket := tickV }
                     else loaderV
    readU64 := fun a => if a = 100 then 7 else 0
    readU32 := fun a => if a = 108 then 9 else 0 }

/-- Witness for C6: ending the fully consumed stream 0 removes it; the
next begin re-assigns the freed id 0. -/
theorem C6_export_end_reuse_witness :
    ES_ExportContentEnd envC6 (mkReq [(0, 4)] []) stateC6 =
      (eraseExport stateC6 0, Reply.default IPC_SUCCESS) ∧
    (ES_ExportContentBegin envC6 (mkReq [(100, 8), (108, 4)] [])
        (eraseExport stateC6 0)).2 = Reply.default 0 := by
  constructor
  · have hend := (C6_export_end_reuse.2.1 envC6 (mkReq [(0, 4)] []) stateC6
      exportDoneEntry (by decide) (by decide) (by decide) (by decide)
      (by decide)).1
    rw [hend]
    decide
  · have hbegin := (C6_export_end_reuse.2.2 envC6 (mkReq [(100, 8), (108, 4)] [])
      (eraseExport stateC6 0) contentC6 (by decide) (by decide) (by decide)
      (by decide) (by decide) (by decide) (by decide)).1
    rw [hbegin]
    have hmex : mex (eraseExport stateC6 0).export_title_context.contents = 0 :=
      mex_eq_of _ 0 (by intro j hj; omega) (by decide)
    rw [hmex]
    decide

/-! ## C10 : the CFD counter -/

/-- The inner open never touches the CFD counter. -/
theorem openTitleContentInner_cnt (env : Env) (s : ESState) (cfd t i : Nat) :
    (openTitleContentInner env s cfd t i).1.accessIdentID = s.accessIdentID := by
  unfold openTitleContentInner
  cases hB : (!(accessContentDevice env s t).valid
      || !(accessContentDevice env s t).tmd.valid
      || !(accessContentDevice env s t).ticket.valid) with
  | true => simp [hB]
  | false =>
    cases hf : (accessContentDevice env s t).tmd.findContentByIndex i with
    | none => simp [hB, hf]
    | some c => simp [hB, hf]

/-- The inner open returns either the sentinel or the given CFD. -/
theorem openTitleContentInner_reply (env : Env) (s : ESState) (cfd t i : Nat) :
    (openTitleContentInner env s cfd t i).2 = 0xffffffff ∨
    (openTitleContentInner env s cfd t i).2 = cfd := by
  unfold openTitleContentInner
  cases hB : (!(accessContentDevice env s t).valid
      || !(accessContentDevice env s t).tmd.valid
      || !(accessContentDevice env s t).ticket.valid) with
  | true => exact Or.inl (by simp [hB])
  | false =>
    cases hf : (accessContentDevice env s t).tmd.findContentByIndex i with
    | none => exact Or.inl (by simp [hB, hf])
    | some c => exact Or.inr (by simp [hB, hf])

/-- One session step: the counter grows by at most one, and a
successfully returned handle is exactly the old counter value, with the
counter then grown by exactly one.  (`hcnt` keeps the `u32` increment
and the `s32` reply conversion out of the wraparound range.) -/
theorem sessionStep_inv (env : Env) (s : ESState) (op : SessionOp)
    (hcnt : s.accessIdentID + 1 ≤ 2147483648) :
    (s.accessIdentID ≤ (sessionStep env s op).1.accessIdentID ∧
     (sessionStep env s op).1.accessIdentID ≤ s.accessIdentID + 1) ∧
    (∀ h ∈ stepHandles env s op, h = s.accessIdentID ∧
      (sessionStep env s op).1.accessIdentID = s.accessIdentID + 1) := by
  have hu : u32 (s.accessIdentID + 1) = s.accessIdentID + 1 := by
    simp only [u32]
    omega
  cases op with
  | openTC req =>
    by_cases hshape : hasVectors req 3 0 = true
    · have hcntr : (ES_OpenTitleContent env req s).1.accessIdentID
          = s.accessIdentID + 1 := by
        simp only [ES_OpenTitleContent, hshape, Bool.not_true, Bool.false_eq_true,
          if_false]
        rw [openTitleContentInner_cnt]
        exact hu
      refine ⟨⟨by simp [sessionStep, hcntr], by simp [sessionStep, hcntr]⟩, ?_⟩
      intro h hmem
      rcases openTitleContentInner_reply env
          { s with accessIdentID := u32 (s.accessIdentID + 1) }
          s.accessIdentID (ru64 env (vecAt req.inVectors 0).address)
          (ru32 env (vecAt req.inVectors 2).address % 65536) with hr | hr
      · exfalso
        simp only [stepHandles, replyHandle, ES_OpenTitleContent, hshape,
          Bool.not_true, Bool.false_eq_true, if_false, hr] at hmem
        have : toS32 0xffffffff = -1 := by decide
        rw [this] at hmem
        simp at hmem
      · simp only [stepHandles, replyHandle, ES_OpenTitleContent, hshape,
          Bool.not_true, Bool.false_eq_true, if_false, hr] at hmem
        have hts : toS32 s.accessIdentID = (s.accessIdentID : Int) := by
          simp only [toS32, u32]
          rw [Nat.mod_eq_of_lt (by omega)]
          split_ifs with hlt
          · rfl
          · omega
        rw [hts] at hmem
        have hnn : (0 : Int) ≤ (s.accessIdentID : Int) := Int.ofNat_nonneg _
        simp only [hnn, if_true, List.mem_singleton] at hmem
        subst hmem
        exact ⟨by simp, by simp [sessionStep, ES_OpenTitleContent, hshape,
          openTitleContentInner_cnt, hu]⟩
    · have hsf : hasVectors req 3 0 = false := by
        cases hv : hasVectors req 3 0
        · rfl
        · exact absurd hv hshape
      have hstate : (sessionStep env s (SessionOp.openTC req)).1 = s := by
        simp [sessionStep, ES_OpenTitleContent, hsf]
      refine ⟨⟨by rw [hstate], by rw [hstate]; omega⟩, ?_⟩
      intro h hmem
      simp [stepHandles, replyHandle, ES_OpenTitleContent, hsf] at hmem
      rcases hmem with ⟨hneg, _⟩
      norm_num [ES_PARAMETER_SIZE_OR_ALIGNMENT] at hneg
  | openC req =>
    by_cases hshape : hasVectors req 1 0 = true
    · by_cases hact : s.titleContext.active = true
      · have hcntr : (ES_OpenContent env req s).1.accessIdentID
            = s.accessIdentID + 1 := by
          simp only [ES_OpenContent, hshape, Bool.not_true, Bool.false_eq_true,
            if_false, hact, Bool.not_false, if_true]
          rw [openTitleContentInner_cnt]
          exact hu
        refine ⟨⟨by simp [sessionStep, hcntr], by simp [sessionStep, hcntr]⟩, ?_⟩
        intro h hmem
        rcases openTitleContentInner_reply env
            { s with accessIdentID := u32 (s.accessIdentID + 1) }
            s.accessIdentID s.titleContext.tmd.titleId
            (ru32 env (vecAt req.inVectors 0).address % 65536) with hr | hr
        · exfalso
          simp only [stepHandles, replyHandle, ES_OpenContent, hshape,
            Bool.not_true, Bool.false_eq_true, if_false, hact, Bool.not_false,
            if_true, hr] at hmem
          have : toS32 0xffffffff = -1 := by decide
          rw [this] at hmem
          simp at hmem
        · simp only [stepHandles, replyHandle, ES_OpenContent, hshape,
            Bool.not_true, Bool.false_eq_true, if_false, hact, Bool.not_false,
            if_true, hr] at hmem
          have hts : toS32 s.accessIdentID = (s.accessIdentID : Int) := by
            simp only [toS32, u32]
            rw [Nat.mod_eq_of_lt (by omega)]
            split_ifs with hlt
            · rfl
            · omega
          rw [hts] at hmem
          have hnn : (0 : Int) ≤ (s.accessIdentID : Int) := Int.ofNat_nonneg _
          simp only [hnn, if_true, List.mem_singleton] at hmem
          subst hmem
          exact ⟨by simp, by simp [sessionStep, ES_OpenContent, hshape, hact,
            openTitleContentInner_cnt, hu]⟩
      · have hactf : s.titleContext.active = false := by
          cases hv : s.titleContext.active
          · rfl
          · exact absurd hv hact
        have hstate : (sessionStep env s (SessionOp.openC req)).1 = s := by
          simp [sessionStep, ES_OpenContent, hshape, hactf]
        refine ⟨⟨by rw [hstate], by rw [hstate]; omega⟩, ?_⟩
        intro h hmem
        simp [stepHandles, replyHandle, ES_OpenContent, hshape, hactf] at hmem
        rcases hmem with ⟨hneg, _⟩
        norm_num [ES_PARAMETER_SIZE_OR_ALIGNMENT] at hneg
    · have hsf : hasVectors req 1 0 = false := by
        cases hv : hasVectors req 1 0
        · rfl
        · exact absurd hv hshape
      have hstate : (sessionStep env s (SessionOp.openC req)).1 = s := by
        simp [sessionStep, ES_OpenContent, hsf]
      refine ⟨⟨by rw [hstate], by rw [hstate]; omega⟩, ?_⟩
      intro h hmem
      simp [stepHandles, replyHandle, ES_OpenContent, hsf] at hmem
      rcases hmem with ⟨hneg, _⟩
      norm_num [ES_PARAMETER_SIZE_OR_ALIGNMENT] at hneg
  | closeC req =>
    have hcc : (sessionStep env s (SessionOp.closeC req)).1.accessIdentID
        = s.accessIdentID := by
      simp only [sessionStep, ES_CloseContent]
      by_cases hv : hasVectors req 1 0 = true
      · cases hf : mfind s.contentAccessMap (ru32 env (vecAt req.inVectors 0).address)
        · simp [hv, hf]
        · simp [hv, hf]
      · have hsf : hasVectors req 1 0 = false := by
          cases hb : hasVectors req 1 0
          · rfl
          · exact absurd hb hv
        simp [hsf]
    refine ⟨⟨by rw [hcc], by rw [hcc]; omega⟩, ?_⟩
    intro h hmem
    simp [stepHandles] at hmem

/-- Over a whole session trace the counter never decreases, every
returned handle lies in `[old counter, final counter)`, and the handle
list is strictly increasing. -/
theorem runSession_spec (env : Env) :
    ∀ (ops : List SessionOp) (s : ESState),
      s.accessIdentID + ops.length ≤ 2147483648 →
      s.accessIdentID ≤ (runSession env ops s).1.accessIdentID ∧
      (runSession env ops s).1.accessIdentID ≤ s.accessIdentID + ops.length ∧
      (∀ h ∈ (runSession env ops s).2,
        s.accessIdentID ≤ h ∧ h < (runSession env ops s).1.accessIdentID) ∧
      (runSession env ops s).2.Chain' (· < ·) := by
  intro ops
  induction ops with
  | nil =>
    intro s hb
    refine ⟨Nat.le_refl _, by simp [runSession], ?_, by simp [runSession]⟩
    intro h hmem
    simp [runSession] at hmem
  | cons op ops ih =>
    intro s hb
    have hcnt : s.accessIdentID + 1 ≤ 2147483648 := by
      have := List.length_cons op ops
      omega
    obtain ⟨⟨hstep1, hstep2⟩, hsteph⟩ := sessionStep_inv env s op hcnt
    have hb2 : (sessionStep env s op).1.accessIdentID + ops.length ≤ 2147483648 := by
      simp only [List.length_cons] at hb
      omega
    obtain ⟨hrec1, hrec2, hrech, hrecc⟩ := ih (sessionStep env s op).1 hb2
    have hrun1 : (runSession env (op :: ops) s).1 =
        (runSession env ops (sessionStep env s op).1).1 := by
      simp [runSession]
    have hrun2 : (runSession env (op :: ops) s).2 =
        stepHandles env s op ++ (runSession env ops (sessionStep env s op).1).2 := by
      simp [runSession]
    refine ⟨?_, ?_, ?_, ?_⟩
    · rw [hrun1]
      omega
    · rw [hrun1]
      simp only [List.length_cons]
      omega
    · intro h hmem
      rw [hrun2] at hmem
      simp only [List.mem_append] at hmem
      rw [hrun1]
      rcases hmem with hm | hm
      · obtain ⟨heq, hinc⟩ := hsteph h hm
        subst heq
        constructor
        · exact Nat.le_refl _
        · omega
      · have := hrech h hm
        omega
    · rw [hrun2]
      rcases hsh : stepHandles env s op with _ | ⟨x, xs⟩
      · simpa using hrecc
      · obtain ⟨hx, hinc⟩ := hsteph x (by rw [hsh]; exact List.mem_cons_self x xs)
        have hlen : (stepHandles env s op).length ≤ 1 := by
          cases op with
          | openTC req => exact replyHandle_len _
          | openC req => exact replyHandle_len _
          | closeC req => simp [stepHandles]
        have hxs : xs = [] := by
          rw [hsh] at hlen
          simp only [List.length_cons] at hlen
          exact List.eq_nil_of_length_eq_zero (by omega)
        subst hxs
        subst hx
        simp only [List.singleton_append]
        rcases hrest : (runSession env ops (sessionStep env s op).1).2 with _ | ⟨y, ys⟩
        · simp
        · have hy := hrech y (by rw [hrest]; exact List.mem_cons_self y ys)
          refine List.Chain'.cons ?_ (by rw [← hrest]; exact hrecc)
          omega

/-- A state with the counter at 7 and no active title, reachable right
after the device is opened (the title context starts inactive). -/
def stateC10 : ESState := { state0 with accessIdentID := 7 }

/--
C10.  Counterexample to the claim as stated: `IOCTL_ES_OPENCONTENT` is a
public open-content request, and when no title context is active it fails
*without* incrementing the CFD counter (the handler returns
`ES_PARAMETER_SIZE_OR_ALIGNMENT` before `m_AccessIdentID++`): the counter
stays at 7.
-/
theorem C10_counterexample :
    hasVectors (mkReq [(0, 4)] []) 1 0 = true ∧
    stateC10.titleContext.active = false ∧
    ES_OpenContent env0 (mkReq [(0, 4)] []) stateC10 =
      (stateC10, Reply.default ES_PARAMETER_SIZE_OR_ALIGNMENT) ∧
    (ES_OpenContent env0 (mkReq [(0, 4)] []) stateC10).1.accessIdentID = 7 := by
  refine ⟨by decide, by decide, by decide, by decide⟩

/--
C10 (amended).  Within one device session, the CFD counter increments on
every well-shaped `OpenTitleContent` request and on every well-shaped
`OpenContent` request with an active title context — including requests
that fail the loader or content lookup and return the all-ones sentinel
— while an `OpenContent` request with no active title fails *before* the
counter.  Consequently (while the counter stays below `2^31`) the
successfully returned handles of a session trace are strictly
increasing: every successfully opened handle is greater than every
handle returned earlier, and handle values are never reused, even after
a close.  `ES::Close` of the device resets the counter to zero and
empties the content access table.
-/
theorem C10_cfd_counter :
    (∀ (env : Env) (req : Request) (s : ESState), hasVectors req 3 0 = true →
      (ES_OpenTitleContent env req s).1.accessIdentID = u32 (s.accessIdentID + 1)) ∧
    (∀ (env : Env) (req : Request) (s : ESState), hasVectors req 1 0 = true →
      s.titleContext.active = true →
      (ES_OpenContent env req s).1.accessIdentID = u32 (s.accessIdentID + 1)) ∧
    (∀ (env : Env) (req : Request) (s : ESState), hasVectors req 1 0 = true →
      s.titleContext.active = false →
      ES_OpenContent env req s = (s, Reply.default ES_PARAMETER_SIZE_OR_ALIGNMENT)) ∧
    (∀ (env : Env) (ops : List SessionOp) (s : ESState),
      s.accessIdentID + ops.length ≤ 2147483648 →
      (runSession env ops s).2.Chain' (· < ·) ∧
      (runSession env ops s).2.Pairwise (· < ·)) ∧
    (∀ s : ESState, (ES_Close s).accessIdentID = 0 ∧
      (ES_Close s).contentAccessMap = []) := by
  refine ⟨?_, ?_, ?_, ?_, ?_⟩
  · intro env req s hshape
    simp only [ES_OpenTitleContent, hshape, Bool.not_true, Bool.false_eq_true,
      if_false]
    rw [openTitleContentInner_cnt]
  · intro env req s hshape hact
    simp only [ES_OpenContent, hshape, Bool.not_true, Bool.false_eq_true,
      if_false, hact, Bool.not_false, if_true]
    rw [openTitleContentInner_cnt]
  · intro env req s hshape hact
    simp [ES_OpenContent, hshape, hact]
  · intro env ops s hb
    have h := (runSession_spec env ops s hb).2.2.2
    exact ⟨h, (List.chain'_iff_pairwise).mp h⟩
  · intro s
    exact ⟨rfl, rfl⟩

/-- A title whose loader carries `contentC1` at index 0, so opens
succeed. -/
def envC10 : Env :=
  { env0 with nand := fun _ =>
      { valid := true,
        tmd := { tmdV with contents := [contentC1] },
        ticket := tickV } }

/-- Witness for C10: two successful opens from the fresh state return the
strictly increasing handles 0 and 1, and the theorem's clauses apply at
these concrete inputs. -/
theorem C10_cfd_counter_witness :
    (ES_OpenTitleContent envC10 (mkReq [(0, 8), (8, 4), (12, 4)] [])
        state0).1.accessIdentID = u32 (state0.accessIdentID + 1) ∧
    (runSession envC10
        [SessionOp.openTC (mkReq [(0, 8), (8, 4), (12, 4)] []),
         SessionOp.openTC (mkReq [(0, 8), (8, 4), (12, 4)] [])]
        state0).2.Pairwise (· < ·) ∧
    (runSession envC10
        [SessionOp.openTC (mkReq [(0, 8), (8, 4), (12, 4)] []),
         SessionOp.openTC (mkReq [(0, 8), (8, 4), (12, 4)] [])]
        state0).2 = [0, 1] := by
  refine ⟨C10_cfd_counter.1 envC10 (mkReq [(0, 8), (8, 4), (12, 4)] []) state0
      (by decide),
    (C10_cfd_counter.2.2.2.1 envC10
      [SessionOp.openTC (mkReq [(0, 8), (8, 4), (12, 4)] []),
       SessionOp.openTC (mkReq [(0, 8), (8, 4), (12, 4)] [])]
      state0 (by decide)).2,
    by decide⟩

/-! ## C2 and C9 : the CBC crypto entry points -/

/-- The chunking result does not depend on the fuel, as long as it covers
the list length. -/
theorem toBlocksAux_fuel : ∀ (f1 : Nat) (l : List Nat) (f2 : Nat),
    l.length ≤ f1 → l.length ≤ f2 → toBlocksAux f1 l = toBlocksAux f2 l := by
  intro f1
  induction f1 with
  | zero =>
    intro l f2 h1 h2
    have hl : l = [] := List.eq_nil_of_length_eq_zero (by omega)
    subst hl
    cases f2 <;> rfl
  | succ f ih =>
    intro l f2 h1 h2
    cases l with
    | nil => cases f2 <;> rfl
    | cons x xs =>
      cases f2 with
      | zero => simp at h2
      | succ g =>
        simp only [toBlocksAux]
        by_cases hlt : (x :: xs).length < 16
        · simp only [List.length_cons] at hlt
          simp [hlt]
        · simp only [hlt, if_false]
          simp only [List.length_cons] at h1 h2
          have hd1 : ((x :: xs).drop 16).length ≤ f := by
            simp only [List.length_drop, List.length_cons]
            omega
          have hd2 : ((x :: xs).drop 16).length ≤ g := by
            simp only [List.length_drop, List.length_cons]
            omega
          rw [ih _ g hd1 hd2]

/-- One chunking step for a buffer of at least one full block. -/
theorem toBlocks_step (l : List Nat) (h16 : 16 ≤ l.length) :
    toBlocks l = (toBlocks (l.drop 16)).map (fun bs => l.take 16 :: bs) := by
  cases l with
  | nil => simp at h16
  | cons x xs =>
    show toBlocksAux (x :: xs).length (x :: xs) = _
    simp only [List.length_cons, toBlocksAux]
    have hlt : ¬ (x :: xs).length < 16 := by
      simp only [List.length_cons] at h16 ⊢
      omega
    simp only [List.length_cons] at hlt
    simp only [hlt, if_false]
    rw [toBlocksAux_fuel xs.length ((x :: xs).drop 16) ((x :: xs).drop 16).length]
    · rfl
    · simp only [List.length_drop, List.length_cons]
      omega
    · exact Nat.le_refl _

/-- A buffer whose length is not a multiple of 16 cannot be chunked. -/
theorem toBlocks_not_mul : ∀ (n : Nat) (l : List Nat), l.length ≤ n →
    l.length % 16 ≠ 0 → toBlocks l = none := by
  intro n
  induction n with
  | zero =>
    intro l h1 h2
    have hl : l = [] := List.eq_nil_of_length_eq_zero (by omega)
    subst hl
    simp at h2
  | succ n ih =>
    intro l h1 h2
    by_cases h16 : 16 ≤ l.length
    · rw [toBlocks_step l h16]
      have hr : (l.drop 16).length % 16 ≠ 0 := by
        simp only [List.length_drop]
        omega
      rw [ih (l.drop 16) (by simp only [List.length_drop]; omega) hr]
      rfl
    · cases l with
      | nil => simp at h2
      | cons x xs =>
        show toBlocksAux (x :: xs).length (x :: xs) = none
        simp only [List.length_cons, toBlocksAux]
        have hlt : (x :: xs).length < 16 := by omega
        simp only [List.length_cons] at hlt
        simp [hlt]

/-- A buffer whose length is a multiple of 16 chunks into blocks of
exactly 16 bytes that flatten back to the buffer. -/
theorem toBlocks_spec : ∀ (n : Nat) (l : List Nat), l.length ≤ n →
    l.length % 16 = 0 →
    ∃ bs, toBlocks l = some bs ∧ bs.flatten = l ∧
      (∀ b ∈ bs, b.length = 16) ∧ (l ≠ [] → bs ≠ []) := by
  intro n
  induction n with
  | zero =>
    intro l h1 h2
    have hl : l = [] := List.eq_nil_of_length_eq_zero (by omega)
    subst hl
    exact ⟨[], rfl, rfl, by simp, by simp⟩
  | succ n ih =>
    intro l h1 h2
    cases hl : l with
    | nil => exact ⟨[], rfl, rfl, by simp, by simp⟩
    | cons x xs =>
      subst hl
      have h16 : 16 ≤ (x :: xs).length := by
        simp only [List.length_cons]
        simp only [List.length_cons] at h2
        omega
      obtain ⟨bs, hbs, hfl, hlen, hnn⟩ := ih ((x :: xs).drop 16)
        (by simp only [List.length_drop]; omega)
        (by simp only [List.length_drop]; omega)
      refine ⟨(x :: xs).take 16 :: bs, ?_, ?_, ?_, by simp⟩
      · rw [toBlocks_step _ h16, hbs]
        rfl
      · simp only [List.flatten_cons, hfl]
        exact List.take_append_drop 16 (x :: xs)
      · intro b hb
        rcases List.mem_cons.mp hb with hb | hb
        · subst hb
          simp only [List.length_take]
          omega
        · exact hlen b hb

/-- Chunking inverts flattening for lists of full blocks. -/
theorem toBlocks_flatten : ∀ (bs : List (List Nat)),
    (∀ b ∈ bs, b.length = 16) → toBlocks bs.flatten = some bs := by
  intro bs
  induction bs with
  | nil => intro _; rfl
  | cons b rest ih =>
    intro h16
    have hb : b.length = 16 := h16 b (List.mem_cons_self b rest)
    have hfl : (b :: rest).flatten = b ++ rest.flatten := List.flatten_cons
    rw [hfl, toBlocks_step (b ++ rest.flatten) (by simp [hb])]
    have hdrop : (b ++ rest.flatten).drop 16 = rest.flatten := by
      rw [← hb]
      exact List.drop_left b rest.flatten
    have htake : (b ++ rest.flatten).take 16 = b := by
      rw [← hb]
      exact List.take_left b rest.flatten
    rw [hdrop, htake, ih (fun x hx => h16 x (List.mem_cons_of_mem b hx))]
    rfl

/-- The final IV of CBC decryption is the last ciphertext block. -/
theorem cbcDecBlocks_snd (C : BlockCipher) (k : List Nat) :
    ∀ (bs : List (List Nat)) (iv : List Nat),
      (cbcDecBlocks C k iv bs).2 = bs.getLastD iv := by
  intro bs
  induction bs with
  | nil => intro iv; rfl
  | cons b rest ih =>
    intro iv
    simp only [cbcDecBlocks, ih, List.getLastD_cons]

/-- The final IV of CBC encryption is the last produced ciphertext
block. -/
theorem cbcEncBlocks_snd (C : BlockCipher) (k : List Nat) :
    ∀ (bs : List (List Nat)) (iv : List Nat),
      (cbcEncBlocks C k iv bs).2 = (cbcEncBlocks C k iv bs).1.getLastD iv := by
  intro bs
  induction bs with
  | nil => intro iv; rfl
  | cons b rest ih =>
    intro iv
    simp only [cbcEncBlocks, ih, List.getLastD_cons]

/-- The last full block of a flattened block list. -/
theorem getLastD_flatten (bs : List (List Nat)) :
    ∀ (iv : List Nat), (∀ b ∈ bs, b.length = 16) → bs ≠ [] →
      bs.getLastD iv = bs.flatten.drop (bs.flatten.length - 16) := by
  induction bs with
  | nil => intro iv _ hne; exact absurd rfl hne
  | cons b rest ih =>
    intro iv h16 _
    have hb : b.length = 16 := h16 b (List.mem_cons_self b rest)
    cases rest with
    | nil => simp [List.getLastD_cons, hb]
    | cons r t =>
      have hrne : (r :: t) ≠ [] := List.cons_ne_nil r t
      have hrlen : 16 ≤ (r :: t).flatten.length := by
        have hr : r.length = 16 := h16 r (by simp)
        simp [hr]
      have hrec := ih b (fun x hx => h16 x (List.mem_cons_of_mem b hx)) hrne
      rw [List.getLastD_cons, hrec]
      have harith : (b ++ (r :: t).flatten).length - 16
          = b.length + ((r :: t).flatten.length - 16) := by
        simp only [List.length_append]
        omega
      show List.drop ((r :: t).flatten.length - 16) (r :: t).flatten
        = List.drop ((b ++ (r :: t).flatten).length - 16) (b ++ (r :: t).flatten)
      rw [harith, List.drop_append]

/-- Lengths after byte-wise xor. -/
theorem xorBytes_length (a b : List Nat) :
    (xorBytes a b).length = min a.length b.length := by
  simp [xorBytes]

/-- Xoring with the same buffer on the right cancels. -/
theorem xorBytes_cancel_right (a : List Nat) :
    ∀ (b : List Nat), a.length = b.length → xorBytes (xorBytes a b) b = a := by
  induction a with
  | nil => intro b h; cases b <;> simp_all [xorBytes]
  | cons x xs ih =>
    intro b h
    cases b with
    | nil => simp at h
    | cons y ys =>
      simp only [xorBytes, List.zipWith_cons_cons, List.cons.injEq]
      refine ⟨Nat.xor_cancel_right _ _, ?_⟩
      have := ih ys (by simpa using h)
      simpa [xorBytes] using this

/-- Xoring with the same buffer on the left cancels (the xor block cipher
used by the witnesses is its own inverse). -/
theorem xorBytes_cancel_left (a : List Nat) :
    ∀ (b : List Nat), a.length = b.length → xorBytes a (xorBytes a b) = b := by
  induction a with
  | nil => intro b h; cases b <;> simp_all [xorBytes]
  | cons x xs ih =>
    intro b h
    cases b with
    | nil => simp at h
    | cons y ys =>
      simp only [xorBytes, List.zipWith_cons_cons, List.cons.injEq]
      refine ⟨Nat.xor_cancel_left _ _, ?_⟩
      have := ih ys (by simpa using h)
      simpa [xorBytes] using this

/-- All ciphertext blocks of CBC encryption are 16 bytes, for a
length-preserving block cipher. -/
theorem cbcEncBlocks_len (C : BlockCipher) (k : List Nat)
    (hklen : ∀ b, b.length = 16 → (C.enc k b).length = 16) :
    ∀ (bs : List (List Nat)) (iv : List Nat), (∀ b ∈ bs, b.length = 16) →
      iv.length = 16 →
      ∀ cb ∈ (cbcEncBlocks C k iv bs).1, cb.length = 16 := by
  intro bs
  induction bs with
  | nil => intro iv _ _ cb hcb; simp [cbcEncBlocks] at hcb
  | cons b rest ih =>
    intro iv h16 hiv cb hcb
    have hb : b.length = 16 := h16 b (List.mem_cons_self b rest)
    have hc : (C.enc k (xorBytes b iv)).length = 16 :=
      hklen _ (by rw [xorBytes_length, hb, hiv]; rfl)
    simp only [cbcEncBlocks, List.mem_cons] at hcb
    rcases hcb with hcb | hcb
    · rw [hcb]; exact hc
    · exact ih (C.enc k (xorBytes b iv))
        (fun x hx => h16 x (List.mem_cons_of_mem b hx)) hc cb hcb

/-- CBC decryption inverts CBC encryption block-by-block, for an
invertible length-preserving block cipher. -/
theorem cbcBlocks_roundtrip (C : BlockCipher) (k : List Nat)
    (hinv : ∀ b, b.length = 16 → C.dec k (C.enc k b) = b)
    (hklen : ∀ b, b.length = 16 → (C.enc k b).length = 16) :
    ∀ (bs : List (List Nat)) (iv : List Nat), (∀ b ∈ bs, b.length = 16) →
      iv.length = 16 →
      cbcDecBlocks C k iv (cbcEncBlocks C k iv bs).1
        = (bs, (cbcEncBlocks C k iv bs).2) := by
  intro bs
  induction bs with
  | nil => intro iv _ _; rfl
  | cons b rest ih =>
    intro iv h16 hiv
    have hb : b.length = 16 := h16 b (List.mem_cons_self b rest)
    have hxlen : (xorBytes b iv).length = 16 := by
      rw [xorBytes_length, hb, hiv]; rfl
    have hc : (C.enc k (xorBytes b iv)).length = 16 := hklen _ hxlen
    have hdec : C.dec k (C.enc k (xorBytes b iv)) = xorBytes b iv := hinv _ hxlen
    have hcancel : xorBytes (xorBytes b iv) iv = b :=
      xorBytes_cancel_right b iv (by omega)
    have hrec := ih (C.enc k (xorBytes b iv))
      (fun x hx => h16 x (List.mem_cons_of_mem b hx)) hc
    simp only [cbcEncBlocks, cbcDecBlocks, hdec, hcancel, hrec]

/--
C2.  Counterexample to the claim as stated: decrypting one 16-byte
ciphertext block whose first byte is 1, under key index 6 with an
all-zero caller IV, leaves in the new-IV output buffer that *ciphertext
block* — the CBC chaining state `mbedtls_aes_crypt_cbc` writes back into
the buffer `ES::DecryptContent` hands it — and not a copy of the
caller-supplied IV.  (The chaining value written on the decrypt side is
the last input block, independently of the block cipher itself.)
-/
theorem C2_counterexample :
    (DecryptContent xorCipher 6 (List.replicate 16 0)
        (1 :: List.replicate 15 0) (List.replicate 16 0)).1
      = 1 :: List.replicate 15 0 ∧
    (1 :: List.replicate 15 0) ≠ List.replicate 16 0 := by
  refine ⟨by decide, by decide⟩

/--
C2 (amended).  The new-IV buffer starts as a `memcpy` of the
caller-supplied IV, but the CBC call then updates it in place: the
caller receives the IV copy unchanged *only* when no block is processed
(an empty buffer, or a length mbedtls rejects as not a multiple of 16).
For a non-empty multiple-of-16 decryption the returned new IV is the
last 16 bytes of the input ciphertext; for an encryption (with a
length-preserving block cipher) it is the last 16 bytes of the produced
ciphertext — the chaining state *is* fed back to the caller.
-/
theorem C2_new_iv (C : BlockCipher) (key_index : Nat) (iv input dest0 : List Nat) :
    (input = [] → DecryptContent C key_index iv input dest0 = (iv, [])) ∧
    (input.length % 16 ≠ 0 →
      DecryptContent C key_index iv input dest0 = (iv, dest0) ∧
      EncryptBody C key_index iv input dest0 = (iv, dest0)) ∧
    (input.length % 16 = 0 → input ≠ [] →
      (DecryptContent C key_index iv input dest0).1
        = input.drop (input.length - 16)) ∧
    ((∀ b, b.length = 16 →
        (C.enc ((s_key_table key_index).take 16) b).length = 16) →
      iv.length = 16 → input.length % 16 = 0 → input ≠ [] →
      (EncryptBody C key_index iv input dest0).1
        = (EncryptBody C key_index iv input dest0).2.drop
            ((EncryptBody C key_index iv input dest0).2.length - 16)) := by
  refine ⟨?_, ?_, ?_, ?_⟩
  · intro h
    subst h
    rfl
  · intro h
    have hnone : toBlocks input = none := toBlocks_not_mul input.length input
      (Nat.le_refl _) h
    constructor <;> simp [DecryptContent, EncryptBody, cbcDec, cbcEnc, hnone]
  · intro hmul hne
    obtain ⟨bs, hbs, hfl, h16, hnn⟩ := toBlocks_spec input.length input
      (Nat.le_refl _) hmul
    simp only [DecryptContent, cbcDec, hbs, Option.map_some']
    rw [cbcDecBlocks_snd]
    rw [getLastD_flatten bs iv h16 (hnn hne), hfl]
  · intro hklen hiv hmul hne
    obtain ⟨bs, hbs, hfl, h16, hnn⟩ := toBlocks_spec input.length input
      (Nat.le_refl _) hmul
    simp only [EncryptBody, cbcEnc, hbs, Option.map_some']
    rw [cbcEncBlocks_snd]
    have hcs16 : ∀ cb ∈ (cbcEncBlocks C ((s_key_table key_index).take 16) iv bs).1,
        cb.length = 16 := cbcEncBlocks_len C _ hklen bs iv h16 hiv
    have hcsne : (cbcEncBlocks C ((s_key_table key_index).take 16) iv bs).1 ≠ [] := by
      have := hnn hne
      cases bs with
      | nil => exact absurd rfl this
      | cons b rest => simp [cbcEncBlocks]
    rw [getLastD_flatten _ iv hcs16 hcsne]

/-- Witness for C2: the amended statement applied to the concrete
decryption of the counterexample block — the new IV is its last (and
only) 16 bytes. -/
theorem C2_new_iv_witness :
    (DecryptContent xorCipher 6 (List.replicate 16 0)
        (1 :: List.replicate 15 0) (List.replicate 16 0)).1
      = (1 :: List.replicate 15 0).drop ((1 :: List.replicate 15 0).length - 16) :=
  (C2_new_iv xorCipher 6 (List.replicate 16 0) (1 :: List.replicate 15 0)
    (List.replicate 16 0)).2.2.1 (by decide) (by decide)

/--
C9.  Counterexample to the claim as stated: for a 1-byte buffer (a size
that is not a multiple of the AES block size), `mbedtls_aes_crypt_cbc`
rejects the length and `ES::Encrypt` ignores the error, leaving the
(dispatcher-zero-filled) destination untouched; encrypt-then-decrypt
yields `[0]`, not the original `[1]`.
-/
theorem C9_counterexample :
    (DecryptContent xorCipher 6 (List.replicate 16 0)
        (EncryptBody xorCipher 6 (List.replicate 16 0) [1] [0]).2 [0]).2 = [0] ∧
    (0 : Nat) ≠ 1 := by
  refine ⟨by decide, by decide⟩

/--
C9 (amended).  For every buffer whose size is a multiple of 16 — the
only sizes the CBC primitive accepts — every key index and every
16-byte IV, encrypting with `ES::Encrypt`'s body and then decrypting the
result with `ES::DecryptContent` under the same key index and IV yields
the original buffer, provided the block cipher decryption inverts
encryption under the selected key (as AES-128 does).
-/
theorem C9_roundtrip (C : BlockCipher) (key_index : Nat)
    (iv src dest1 dest2 : List Nat)
    (hinv : ∀ b, b.length = 16 →
      C.dec ((s_key_table key_index).take 16)
        (C.enc ((s_key_table key_index).take 16) b) = b)
    (hklen : ∀ b, b.length = 16 →
      (C.enc ((s_key_table key_index).take 16) b).length = 16)
    (hiv : iv.length = 16) (hmul : src.length % 16 = 0) :
    (DecryptContent C key_index iv
        (EncryptBody C key_index iv src dest1).2 dest2).2 = src := by
  obtain ⟨bs, hbs, hfl, h16, hnn⟩ := toBlocks_spec src.length src
    (Nat.le_refl _) hmul
  have henc : (EncryptBody C key_index iv src dest1).2
      = (cbcEncBlocks C ((s_key_table key_index).take 16) iv bs).1.flatten := by
    simp [EncryptBody, cbcEnc, hbs]
  have hcs16 : ∀ cb ∈ (cbcEncBlocks C ((s_key_table key_index).take 16) iv bs).1,
      cb.length = 16 := cbcEncBlocks_len C _ hklen bs iv h16 hiv
  have hblocks := toBlocks_flatten _ hcs16
  have hrt := cbcBlocks_roundtrip C ((s_key_table key_index).take 16)
    hinv hklen bs iv h16 hiv
  rw [henc]
  simp only [DecryptContent, cbcDec, hblocks, Option.map_some', hrt]
  exact hfl

/-- Witness for C9: the xor block cipher (a self-inverse,
length-preserving cipher) on a concrete 16-byte buffer under key index 6
and the all-zero IV round-trips. -/
theorem C9_roundtrip_witness :
    (DecryptContent xorCipher 6 (List.replicate 16 0)
        (EncryptBody xorCipher 6 (List.replicate 16 0)
          (3 :: 1 :: List.replicate 14 4) (List.replicate 16 0)).2
        (List.replicate 16 0)).2 = 3 :: 1 :: List.replicate 14 4 :=
  C9_roundtrip xorCipher 6 (List.replicate 16 0) (3 :: 1 :: List.replicate 14 4)
    (List.replicate 16 0) (List.replicate 16 0)
    (fun b hb => xorBytes_cancel_left _ b (by rw [hb]; rfl))
    (fun b hb => by
      show (xorBytes ((s_key_table 6).take 16) b).length = 16
      rw [xorBytes_length, hb]
      decide)
    (by decide) (by decide)

end DolphinES
